import Mathlib

/-!
# Wintun namespace / mutex subsystem (`api/namespace.c`)

A shallow embedding of `api/namespace.c`.  The operating system is an oracle:
every Win32 / BCrypt call the code makes takes its outcome from an
environment record, and every call is appended to a trace of events, so that
statements about which OS calls a run performs are statements about the trace.
Loops whose number of iterations is decided by the OS (`for (;;)` in
`NamespaceRuntimeInit` and in `NormalizeStringAlloc`) consume a list of
outcomes; a run whose list ends before the loop exits has no result (`none`).
-/

namespace Wintun

/-! ## Machine types and constants -/

abbrev DWORD := Nat
abbrev HANDLE := Nat
abbrev NTSTATUS := Int
abbrev WCHAR := Nat
abbrev BYTE := Nat

def NULL : HANDLE := 0
def ERROR_SUCCESS : DWORD := 0
def ERROR_PATH_NOT_FOUND : DWORD := 3
def ERROR_GEN_FAILURE : DWORD := 31
def ERROR_INSUFFICIENT_BUFFER : DWORD := 122
def ERROR_ALREADY_EXISTS : DWORD := 183
def WAIT_OBJECT_0 : DWORD := 0
def WAIT_ABANDONED : DWORD := 0x80

/-- The macro `BCRYPT_SUCCESS(Status)`, that is `((NTSTATUS)(Status)) >= 0`. -/
def BCRYPT_SUCCESS (Status : NTSTATUS) : Bool := decide (0 ≤ Status)

/-- Outcome of one Win32 call: the value it returns (a `BOOL` or a `HANDLE`,
`0` being `FALSE` / `NULL`) and the value `GetLastError()` reports after it. -/
structure OsRet where
  ret : Nat
  err : DWORD
deriving DecidableEq, Repr

/-- The OS and library calls of `namespace.c`, with the arguments that matter
(the log level, always `WINTUN_LOG_ERR`, is left out).
`DeleteBoundaryDescriptor` is the Win32 call that releases a boundary
descriptor; it is part of the vocabulary although the code never issues it. -/
inductive Event where
  | EnterCriticalSection
  | LeaveCriticalSection
  | BCryptOpenAlgorithmProvider
  | BCryptCloseAlgorithmProvider (Alg : HANDLE)
  | CreateWellKnownSid
  | CreateBoundaryDescriptorW
  | AddSIDToBoundaryDescriptor (Boundary : HANDLE)
  | CreatePrivateNamespaceW (Boundary : HANDLE)
  | OpenPrivateNamespaceW (Boundary : HANDLE)
  | DeleteBoundaryDescriptor (Boundary : HANDLE)
  | BCryptCreateHash (Alg : HANDLE)
  | BCryptHashData (Hash : HANDLE) (Input : List BYTE)
  | BCryptFinishHash (Hash : HANDLE)
  | BCryptDestroyHash (Hash : HANDLE)
  | NormalizeString (Source : List WCHAR) (DstLength : Int)
  | HeapAlloc (Units : Int)
  | HeapFree (Mem : HANDLE)
  | LoggerLog (Line : String)
  | LoggerError (Line : String) (Error : DWORD)
  | CreateMutexW (Name : List WCHAR)
  | WaitForSingleObject (Mutex : HANDLE)
  | ReleaseMutex (Mutex : HANDLE)
  | CloseHandle (Mutex : HANDLE)
deriving DecidableEq, Repr

/-- The file-scope variables `HasInitialized` and `AlgProvider`. -/
structure State where
  HasInitialized : Bool
  AlgProvider : HANDLE
deriving DecidableEq, Repr

/-- What the OS answers during one call of `NamespaceRuntimeInit`. -/
structure InitEnv where
  /-- status returned by `BCryptOpenAlgorithmProvider` -/
  openProvider : NTSTATUS
  /-- handle it stores into `AlgProvider` when it succeeds -/
  provider : HANDLE
  /-- `CreateWellKnownSid` -/
  sid : OsRet
  /-- `CreateBoundaryDescriptorW` -/
  boundary : OsRet
  /-- `AddSIDToBoundaryDescriptor` -/
  addSid : OsRet
  /-- the namespace calls, in the order the loop issues them -/
  ns : List OsRet
deriving DecidableEq, Repr

/-! ## `NamespaceRuntimeInit` -/

/-- The `for (;;)` loop of `NamespaceRuntimeInit` (lines 76-90).  `.ok ()` is
`break`, `.error Result` is `goto cleanupBCryptCloseAlgorithmProvider`. -/
def namespaceLoop (Boundary : HANDLE) :
    List OsRet → Option (Except DWORD Unit × List Event)
  | [] => none
  | c :: rest =>
    if c.ret ≠ 0 then
      some (.ok (), [.CreatePrivateNamespaceW Boundary])
    else if c.err = ERROR_ALREADY_EXISTS then
      match rest with
      | [] => none
      | o :: rest' =>
        if o.ret ≠ 0 then
          some (.ok (), [.CreatePrivateNamespaceW Boundary, .OpenPrivateNamespaceW Boundary])
        else if o.err = ERROR_PATH_NOT_FOUND then
          match namespaceLoop Boundary rest' with
          | none => none
          | some (r, tl) =>
            some (r, .CreatePrivateNamespaceW Boundary :: .OpenPrivateNamespaceW Boundary :: tl)
        else
          some (.error o.err, [.CreatePrivateNamespaceW Boundary, .OpenPrivateNamespaceW Boundary])
    else
      some (.error c.err, [.CreatePrivateNamespaceW Boundary])

/-- `NamespaceRuntimeInit` (lines 38-101): the returned code, the file-scope
variables afterwards and the calls made. -/
def NamespaceRuntimeInit (s : State) (env : InitEnv) :
    Option (DWORD × State × List Event) :=
  if s.HasInitialized then
    some (ERROR_SUCCESS, s, [.EnterCriticalSection, .LeaveCriticalSection])
  else if !BCRYPT_SUCCESS env.openProvider then
    some (ERROR_GEN_FAILURE, s,
      [.EnterCriticalSection, .BCryptOpenAlgorithmProvider, .LeaveCriticalSection])
  else
    let s1 : State := { s with AlgProvider := env.provider }
    if env.sid.ret = 0 then
      some (env.sid.err, s1,
        [.EnterCriticalSection, .BCryptOpenAlgorithmProvider, .CreateWellKnownSid,
         .BCryptCloseAlgorithmProvider s1.AlgProvider, .LeaveCriticalSection])
    else if env.boundary.ret = 0 then
      some (env.boundary.err, s1,
        [.EnterCriticalSection, .BCryptOpenAlgorithmProvider, .CreateWellKnownSid,
         .CreateBoundaryDescriptorW,
         .BCryptCloseAlgorithmProvider s1.AlgProvider, .LeaveCriticalSection])
    else if env.addSid.ret = 0 then
      some (env.addSid.err, s1,
        [.EnterCriticalSection, .BCryptOpenAlgorithmProvider, .CreateWellKnownSid,
         .CreateBoundaryDescriptorW, .AddSIDToBoundaryDescriptor env.boundary.ret,
         .BCryptCloseAlgorithmProvider s1.AlgProvider, .LeaveCriticalSection])
    else
      match namespaceLoop env.boundary.ret env.ns with
      | none => none
      | some (.error Result, tl) =>
        some (Result, s1,
          [.EnterCriticalSection, .BCryptOpenAlgorithmProvider, .CreateWellKnownSid,
           .CreateBoundaryDescriptorW, .AddSIDToBoundaryDescriptor env.boundary.ret] ++ tl ++
          [.BCryptCloseAlgorithmProvider s1.AlgProvider, .LeaveCriticalSection])
      | some (.ok (), tl) =>
        some (ERROR_SUCCESS, { s1 with HasInitialized := true },
          [.EnterCriticalSection, .BCryptOpenAlgorithmProvider, .CreateWellKnownSid,
           .CreateBoundaryDescriptorW, .AddSIDToBoundaryDescriptor env.boundary.ret] ++ tl ++
          [.LeaveCriticalSection])

/-- `NamespaceInit` (lines 181-185) only constructs the critical section; the
file-scope variables keep their static initial values. -/
def NamespaceInit : State := { HasInitialized := false, AlgProvider := NULL }

/-- `NamespaceCleanup` (lines 187-198). -/
def NamespaceCleanup (s : State) : State × List Event :=
  if s.HasInitialized then
    ({ s with HasInitialized := false },
      [.EnterCriticalSection, .BCryptCloseAlgorithmProvider s.AlgProvider,
       .LeaveCriticalSection])
  else
    (s, [.EnterCriticalSection, .LeaveCriticalSection])

/-! ## `NormalizeStringAlloc` -/

/-- What the OS answers in one round of the loop of `NormalizeStringAlloc`. -/
structure NormAttempt where
  /-- pointer returned by `HeapAlloc` (`0` is `NULL`) -/
  alloc : HANDLE
  /-- value returned by `NormalizeString(NormForm, Source, -1, Str, Len)` -/
  ret : Int
  /-- code units of `Str` after that call -/
  out : List WCHAR
  /-- `GetLastError()` after that call -/
  err : DWORD
deriving DecidableEq, Repr

/-- What the OS answers during one call of `NormalizeStringAlloc`. -/
structure NormEnv where
  /-- value returned by `NormalizeString(NormForm, Source, -1, NULL, 0)` -/
  estimate : Int
  attempts : List NormAttempt
deriving DecidableEq, Repr

/-- The `for (;;)` loop of `NormalizeStringAlloc` (lines 22-35), entered with
the current `Len`.  The result is the returned pointer with the code units it
points to, or `none` for `NULL`. -/
def normalizeLoop (Source : List WCHAR) :
    Int → List NormAttempt → Option (Option (HANDLE × List WCHAR) × List Event)
  | _, [] => none
  | Len, a :: rest =>
    if a.alloc = NULL then
      some (none, [.HeapAlloc Len, .LoggerLog "NormalizeStringAlloc: Out of memory"])
    else if 0 < a.ret then
      some (some (a.alloc, a.out), [.HeapAlloc Len, .NormalizeString Source Len])
    else if a.err ≠ ERROR_INSUFFICIENT_BUFFER then
      some (none, [.HeapAlloc Len, .NormalizeString Source Len, .HeapFree a.alloc,
                   .LoggerError "NormalizeStringAlloc: Failed" a.err])
    else
      match normalizeLoop Source (-a.ret) rest with
      | none => none
      | some (r, tl) =>
        some (r, .HeapAlloc Len :: .NormalizeString Source Len :: .HeapFree a.alloc :: tl)

/-- `NormalizeStringAlloc` (lines 18-36). -/
def NormalizeStringAlloc (Source : List WCHAR) (env : NormEnv) :
    Option (Option (HANDLE × List WCHAR) × List Event) :=
  match normalizeLoop Source env.estimate env.attempts with
  | none => none
  | some (r, tl) => some (r, .NormalizeString Source 0 :: tl)

/-! ## Strings and memory -/

/-- Code units of a string literal `L"..."`, without the terminator. -/
def wstr (lit : String) : List WCHAR := lit.toList.map Char.toNat

/-- The bytes of an array of `WCHAR` (little endian, two bytes per unit). -/
def bytesOf (mem : List WCHAR) : List BYTE :=
  mem.flatMap (fun c => [c % 256, c / 256 % 256])

/-- The `cb` bytes a call reads starting at the address of `mem` (all of `mem`
when `cb` exceeds its size). -/
def readBytes (mem : List WCHAR) (cb : Nat) : List BYTE := (bytesOf mem).take cb

/-- `wcslen`: the number of code units before the first NUL. -/
def wcslen (mem : List WCHAR) : Nat := (mem.takeWhile (fun c => c ≠ 0)).length

/-- The NUL-terminated string a callee reads at the address of `mem`. -/
def cstr (mem : List WCHAR) : List WCHAR := mem.takeWhile (fun c => c ≠ 0)

/-- `static const WCHAR mutex_label[]` (line 115), terminator included. -/
def mutex_label : List WCHAR :=
  wstr "Wintun Adapter Name Mutex Stable Suffix v1 jason@zx2c4.com" ++ [0]

/-- `static const WCHAR MutexNamePrefix[]` (line 126), terminator included. -/
def MutexNamePrefix : List WCHAR :=
  wstr "Wintun\\Wintun-Name-Mutex-" ++ [0]

/-- One lowercase hexadecimal digit as printed by the `x` conversion. -/
def hexDigit (d : Nat) : WCHAR := if d < 10 then 48 + d else 87 + d

/-- `swprintf_s(&buf[off], 3, L"%02x", b)` for a `BYTE` `b`: two digits and the
terminating NUL. -/
def swprintf_s_02x (buf : List WCHAR) (off : Nat) (b : BYTE) : List WCHAR :=
  ((buf.set off (hexDigit (b / 16))).set (off + 1) (hexDigit (b % 16))).set (off + 2) 0

/-- `BYTE Hash[32]` after `BCryptFinishHash(Sha256, Hash, sizeof(Hash), 0)`, for
a provider whose hash function is `sha256` and a hash object fed `fed`. -/
def digest (sha256 : List BYTE → List BYTE) (fed : List BYTE) : List BYTE :=
  (List.range 32).map (fun i => (sha256 fed).getD i 0 % 256)

/-- Lines 127-130: the buffer `MutexName` (of `_countof(MutexNamePrefix) +
sizeof(Hash) * 2` units, initially holding `stack`) after the `memcpy` and the
rendering loop. -/
def buildMutexName (stack : Nat → WCHAR) (Hash : List BYTE) : List WCHAR :=
  let MutexName : List WCHAR :=
    (List.range (MutexNamePrefix.length + 32 * 2)).map stack
  let MutexName := MutexNamePrefix ++ MutexName.drop MutexNamePrefix.length
  (List.range 32).foldl
    (fun buf i => swprintf_s_02x buf (MutexNamePrefix.length - 1 + i * 2) (Hash.getD i 0))
    MutexName

/-- Lines 127-130 stopped after the first `k` rounds of the rendering loop: the
buffer `MutexName` after the `memcpy` and the writes for `i = 0 .. k - 1`
(`buildMutexName` is the case `k = 32`). -/
def mutexNameAfter (stack : Nat → WCHAR) (Hash : List BYTE) (k : Nat) : List WCHAR :=
  let MutexName : List WCHAR :=
    (List.range (MutexNamePrefix.length + 32 * 2)).map stack
  let MutexName := MutexNamePrefix ++ MutexName.drop MutexNamePrefix.length
  (List.range k).foldl
    (fun buf i => swprintf_s_02x buf (MutexNamePrefix.length - 1 + i * 2) (Hash.getD i 0))
    MutexName

/-! ## The mutex operations -/

/-- What the OS answers during one call of `NamespaceTakePoolMutex`. -/
structure PoolEnv where
  init : InitEnv
  /-- status of `BCryptCreateHash` and the handle it stores into `Sha256` -/
  createHash : NTSTATUS
  hashHandle : HANDLE
  /-- status of the first `BCryptHashData` -/
  hashLabel : NTSTATUS
  norm : NormEnv
  /-- status of the second `BCryptHashData` -/
  hashPool : NTSTATUS
  /-- status of `BCryptFinishHash` -/
  finishHash : NTSTATUS
  /-- the hash function the provider computes -/
  sha256 : List BYTE → List BYTE
  /-- what the stack holds where `MutexName` is placed -/
  stack : Nat → WCHAR
  /-- handle returned by `CreateMutexW` -/
  createMutex : HANDLE
  /-- value returned by `WaitForSingleObject(Mutex, INFINITE)` -/
  wait : DWORD

/-- `NamespaceTakePoolMutex` (lines 103-148): the returned handle, the
file-scope variables afterwards and the calls made.  The byte count of the
second `BCryptHashData` is `(int)wcslen(PoolNorm) + 2` as in the source (no
wrap-around: `PoolNorm` has at most `INT_MAX` units). -/
def NamespaceTakePoolMutex (Pool : List WCHAR) (s : State) (env : PoolEnv) :
    Option (HANDLE × State × List Event) :=
  match NamespaceRuntimeInit s env.init with
  | none => none
  | some (r, s1, t0) =>
    if r ≠ ERROR_SUCCESS then
      some (NULL, s1, t0)
    else if !BCRYPT_SUCCESS env.createHash then
      some (NULL, s1, t0 ++ [.BCryptCreateHash s1.AlgProvider])
    else
      let Sha256 := env.hashHandle
      let label := readBytes mutex_label (2 * mutex_label.length)
      let t1 := t0 ++ [.BCryptCreateHash s1.AlgProvider, .BCryptHashData Sha256 label]
      if !BCRYPT_SUCCESS env.hashLabel then
        some (NULL, s1, t1 ++ [.BCryptDestroyHash Sha256])
      else
        match NormalizeStringAlloc Pool env.norm with
        | none => none
        | some (none, tn) => some (NULL, s1, t1 ++ tn ++ [.BCryptDestroyHash Sha256])
        | some (some (mem, PoolNorm), tn) =>
          let input := readBytes PoolNorm (wcslen PoolNorm + 2)
          let t2 := t1 ++ tn ++ [.BCryptHashData Sha256 input]
          if !BCRYPT_SUCCESS env.hashPool then
            some (NULL, s1, t2 ++ [.HeapFree mem, .BCryptDestroyHash Sha256])
          else if !BCRYPT_SUCCESS env.finishHash then
            some (NULL, s1,
              t2 ++ [.BCryptFinishHash Sha256, .HeapFree mem, .BCryptDestroyHash Sha256])
          else
            let Hash := digest env.sha256 (label ++ input)
            let MutexName := buildMutexName env.stack Hash
            let Mutex := env.createMutex
            let t3 := t2 ++ [.BCryptFinishHash Sha256, .CreateMutexW (cstr MutexName)]
            if Mutex = NULL then
              some (NULL, s1, t3 ++ [.HeapFree mem, .BCryptDestroyHash Sha256])
            else if env.wait = WAIT_OBJECT_0 ∨ env.wait = WAIT_ABANDONED then
              some (Mutex, s1,
                t3 ++ [.WaitForSingleObject Mutex, .HeapFree mem, .BCryptDestroyHash Sha256])
            else
              some (NULL, s1,
                t3 ++ [.WaitForSingleObject Mutex, .CloseHandle Mutex, .HeapFree mem,
                       .BCryptDestroyHash Sha256])

/-- What the OS answers during one call of
`NamespaceTakeDriverInstallationMutex`. -/
structure DriverEnv where
  init : InitEnv
  /-- handle returned by `CreateMutexW` -/
  createMutex : HANDLE
  /-- value returned by `WaitForSingleObject(Mutex, INFINITE)` -/
  wait : DWORD
deriving DecidableEq, Repr

/-- The fixed name of line 158. -/
def DriverInstallationMutexName : List WCHAR :=
  wstr "Wintun\\Wintun-Driver-Installation-Mutex"

/-- `NamespaceTakeDriverInstallationMutex` (lines 150-172). -/
def NamespaceTakeDriverInstallationMutex (s : State) (env : DriverEnv) :
    Option (HANDLE × State × List Event) :=
  match NamespaceRuntimeInit s env.init with
  | none => none
  | some (r, s1, t0) =>
    if r ≠ ERROR_SUCCESS then
      some (NULL, s1, t0)
    else
      let Mutex := env.createMutex
      let t1 := t0 ++ [.CreateMutexW DriverInstallationMutexName]
      if Mutex = NULL then
        some (NULL, s1, t1)
      else if env.wait = WAIT_OBJECT_0 ∨ env.wait = WAIT_ABANDONED then
        some (Mutex, s1, t1 ++ [.WaitForSingleObject Mutex])
      else
        some (NULL, s1, t1 ++ [.WaitForSingleObject Mutex, .CloseHandle Mutex])

/-- `NamespaceReleaseMutex` (lines 174-179). -/
def NamespaceReleaseMutex (Mutex : HANDLE) : List Event :=
  [.ReleaseMutex Mutex, .CloseHandle Mutex]

/-! ## Reading traces -/

/-- Whether a call is a call of the logger: `LOG` expands to `LoggerLog`, which
calls `Logger`; `LOG_ERROR` expands to `LoggerError`, which `logger.h` declares
and which is taken to log as well. -/
def Event.isLog : Event → Bool
  | .LoggerLog _ => true
  | .LoggerError _ _ => true
  | _ => false

/-- The bytes fed to the hash object `Hash`, in order. -/
def fedBytes (Hash : HANDLE) (tr : List Event) : List BYTE :=
  tr.flatMap (fun e =>
    match e with
    | .BCryptHashData h Input => if h = Hash then Input else []
    | _ => [])

/-- The names passed to `CreateMutexW`, in order. -/
def mutexNames (tr : List Event) : List (List WCHAR) :=
  tr.filterMap (fun e =>
    match e with
    | .CreateMutexW Name => some Name
    | _ => none)

/-- Whether a call is `CreatePrivateNamespaceW`. -/
def Event.isCreateNamespace : Event → Bool
  | .CreatePrivateNamespaceW _ => true
  | _ => false

/-- The number of `CreatePrivateNamespaceW` calls. -/
def createAttempts (tr : List Event) : Nat := tr.countP Event.isCreateNamespace

/-- The two-digit lowercase hexadecimal rendering of each byte, in order, as
the specification words it: digits are looked up in `0123456789abcdef`. -/
def lowerHex (bytes : List BYTE) : List WCHAR :=
  bytes.flatMap (fun b =>
    [("0123456789abcdef".toList.getD (b / 16) '0').toNat,
     ("0123456789abcdef".toList.getD (b % 16) '0').toNat])

/-- The digits written by the first `k` renderings. -/
def hexOf (Hash : List BYTE) (k : Nat) : List WCHAR :=
  (List.range k).flatMap (fun i =>
    [hexDigit (Hash.getD i 0 / 16), hexDigit (Hash.getD i 0 % 16)])

/-- The part of `MutexName` that the first `k` renderings have not touched. -/
def stackTail (stack : Nat → WCHAR) (k : Nat) : List WCHAR :=
  (List.range' (26 + 2 * k) (64 - 2 * k)).map stack

/-- The calls `NamespaceRuntimeInit` can make. -/
def Event.isBootstrap : Event → Bool
  | .EnterCriticalSection => true
  | .LeaveCriticalSection => true
  | .BCryptOpenAlgorithmProvider => true
  | .BCryptCloseAlgorithmProvider _ => true
  | .CreateWellKnownSid => true
  | .CreateBoundaryDescriptorW => true
  | .AddSIDToBoundaryDescriptor _ => true
  | .CreatePrivateNamespaceW _ => true
  | .OpenPrivateNamespaceW _ => true
  | _ => false

/-- The calls `NormalizeStringAlloc` can make. -/
def Event.isNormalize : Event → Bool
  | .NormalizeString _ _ => true
  | .HeapAlloc _ => true
  | .HeapFree _ => true
  | .LoggerLog _ => true
  | .LoggerError _ _ => true
  | _ => false

/-- Whether a call is `BCryptCloseAlgorithmProvider`. -/
def Event.isCloseProvider : Event → Bool
  | .BCryptCloseAlgorithmProvider _ => true
  | _ => false

/-- Whether a call is `DeleteBoundaryDescriptor`. -/
def Event.isDeleteBoundary : Event → Bool
  | .DeleteBoundaryDescriptor _ => true
  | _ => false

/-- The calls of `NamespaceRuntimeInit` between opening the provider and the
cleanup labels: SID, boundary descriptor and namespace calls. -/
def Event.isBoundaryWork : Event → Bool
  | .CreateWellKnownSid => true
  | .CreateBoundaryDescriptorW => true
  | .AddSIDToBoundaryDescriptor _ => true
  | .CreatePrivateNamespaceW _ => true
  | .OpenPrivateNamespaceW _ => true
  | _ => false

/-- The outcomes of `n` rounds in which `CreatePrivateNamespaceW` reports
`ERROR_ALREADY_EXISTS` and `OpenPrivateNamespaceW` reports
`ERROR_PATH_NOT_FOUND`, followed by the outcomes `tail`. -/
def raceRounds : Nat → List OsRet → List OsRet
  | 0, tail => tail
  | n + 1, tail =>
    ⟨0, ERROR_ALREADY_EXISTS⟩ :: ⟨0, ERROR_PATH_NOT_FOUND⟩ :: raceRounds n tail

/-- A failed Win32 call reports a last-error code other than `ERROR_SUCCESS`
(the Win32 convention for the calls of `NamespaceRuntimeInit`). -/
def OsRet.reportsFailure (c : OsRet) : Bool := c.ret ≠ 0 || c.err ≠ ERROR_SUCCESS

/-- Every failed call of the run reports a non-zero last-error code. -/
def InitEnv.failuresReported (env : InitEnv) : Bool :=
  env.sid.reportsFailure && env.boundary.reportsFailure && env.addSid.reportsFailure &&
    env.ns.all OsRet.reportsFailure

/-- Consecutive calls of `NamespaceRuntimeInit`, with no `NamespaceCleanup` in
between: the final variables and, per call, the code returned and the calls
made. -/
def runtimeInitCalls (s : State) : List InitEnv → Option (State × List (DWORD × List Event))
  | [] => some (s, [])
  | env :: rest =>
    match NamespaceRuntimeInit s env with
    | none => none
    | some (r, s1, tr) =>
      match runtimeInitCalls s1 rest with
      | none => none
      | some (s2, rs) => some (s2, (r, tr) :: rs)

/-! ## Sample environments -/

/-- Every bootstrap call succeeds at once. -/
def bootOk : InitEnv where
  openProvider := 0
  provider := 7
  sid := ⟨1, 0⟩
  boundary := ⟨9, 0⟩
  addSid := ⟨1, 0⟩
  ns := [⟨11, 0⟩]

/-- `BCryptOpenAlgorithmProvider` fails with `STATUS_NOT_FOUND`. -/
def bootNoProvider : InitEnv where
  openProvider := -1073741275
  provider := 0
  sid := ⟨1, 0⟩
  boundary := ⟨9, 0⟩
  addSid := ⟨1, 0⟩
  ns := []

/-- `AddSIDToBoundaryDescriptor` fails with `ERROR_INVALID_PARAMETER`. -/
def bootAddSidFails : InitEnv where
  openProvider := 0
  provider := 7
  sid := ⟨1, 0⟩
  boundary := ⟨9, 0⟩
  addSid := ⟨0, 87⟩
  ns := []

/-- `CreatePrivateNamespaceW` fails with `ERROR_ACCESS_DENIED`. -/
def bootCreateDenied : InitEnv where
  openProvider := 0
  provider := 7
  sid := ⟨1, 0⟩
  boundary := ⟨9, 0⟩
  addSid := ⟨1, 0⟩
  ns := [⟨0, 5⟩]

/-- `CreateWellKnownSid` fails while `GetLastError()` gives `ERROR_SUCCESS`. -/
def bootSidUnreported : InitEnv where
  openProvider := 0
  provider := 7
  sid := ⟨0, 0⟩
  boundary := ⟨9, 0⟩
  addSid := ⟨1, 0⟩
  ns := []

/-- The bootstrap prerequisites succeed and the namespace calls answer `ns`. -/
def bootWith (ns : List OsRet) : InitEnv where
  openProvider := 0
  provider := 7
  sid := ⟨1, 0⟩
  boundary := ⟨9, 0⟩
  addSid := ⟨1, 0⟩
  ns := ns

/-- A stand-in for the provider's hash function in sample runs. -/
def sampleSha (m : List BYTE) : List BYTE := List.replicate 31 m.length ++ [10]

/-- A run of `NamespaceTakePoolMutex` in which every call succeeds, the
normalized identifier is `norm` and `WaitForSingleObject` returns `wait`. -/
def poolOk (sha256 : List BYTE → List BYTE) (norm : List WCHAR) (wait : DWORD) : PoolEnv where
  init := bootOk
  createHash := 0
  hashHandle := 5
  hashLabel := 0
  norm := { estimate := norm.length + 1,
            attempts := [⟨100, norm.length + 1, norm ++ [0], 0⟩] }
  hashPool := 0
  finishHash := 0
  sha256 := sha256
  stack := fun _ => 0xCCCC
  createMutex := 77
  wait := wait

/-- A run of `NamespaceTakePoolMutex` in which `NormalizeString` rejects the
identifier with `ERROR_NO_UNICODE_TRANSLATION`. -/
def poolBadUnicode : PoolEnv where
  init := bootOk
  createHash := 0
  hashHandle := 5
  hashLabel := 0
  norm := { estimate := 2, attempts := [⟨100, 0, [], 1113⟩] }
  hashPool := 0
  finishHash := 0
  sha256 := sampleSha
  stack := fun _ => 0xCCCC
  createMutex := 77
  wait := 0

/-- A run of `NamespaceTakeDriverInstallationMutex` in which every call
succeeds and `WaitForSingleObject` returns `wait`. -/
def driverOk (wait : DWORD) : DriverEnv where
  init := bootOk
  createMutex := 77
  wait := wait

/-! ## Lemmas on buffers -/

theorem set_at_length {α : Type} (A : List α) (x a : α) (B : List α) :
    (A ++ x :: B).set A.length a = A ++ a :: B := by
  induction A with
  | nil => rfl
  | cons h t ih => simp [ih]

theorem set_at_length_succ {α : Type} (A : List α) (x y a : α) (B : List α) :
    (A ++ x :: y :: B).set (A.length + 1) a = A ++ x :: a :: B := by
  induction A with
  | nil => rfl
  | cons h t ih => simp [ih]

theorem set_at_length_succ_succ {α : Type} (A : List α) (x y z a : α) (B : List α) :
    (A ++ x :: y :: z :: B).set (A.length + 2) a = A ++ x :: y :: a :: B := by
  induction A with
  | nil => rfl
  | cons h t ih => simp [ih]

/-- The effect of one rendering on a buffer split at the write offset. -/
theorem swprintf_s_02x_at (A : List WCHAR) (x y z : WCHAR) (B : List WCHAR) (b : BYTE) :
    swprintf_s_02x (A ++ x :: y :: z :: B) A.length b =
      A ++ hexDigit (b / 16) :: hexDigit (b % 16) :: 0 :: B := by
  unfold swprintf_s_02x
  rw [set_at_length, set_at_length_succ, set_at_length_succ_succ]

/-- The code's digit arithmetic agrees with the digit table. -/
theorem hexDigit_eq_table (d : Nat) (h : d < 16) :
    hexDigit d = ("0123456789abcdef".toList.getD d '0').toNat := by
  interval_cases d <;> rfl

theorem hexOf_succ (Hash : List BYTE) (k : Nat) :
    hexOf Hash (k + 1) =
      hexOf Hash k ++ [hexDigit (Hash.getD k 0 / 16), hexDigit (Hash.getD k 0 % 16)] := by
  simp [hexOf, List.range_succ, List.flatMap_append]

theorem hexOf_length (Hash : List BYTE) (k : Nat) : (hexOf Hash k).length = 2 * k := by
  induction k with
  | zero => simp [hexOf]
  | succ k ih => rw [hexOf_succ, List.length_append, ih]; simp; omega

theorem stackTail_step (stack : Nat → WCHAR) (k : Nat) (hk : k < 32) :
    stackTail stack k =
      stack (26 + 2 * k) :: stack (26 + 2 * k + 1) :: stackTail stack (k + 1) := by
  unfold stackTail
  have h : 64 - 2 * k = (64 - 2 * (k + 1)) + 1 + 1 := by omega
  rw [h, List.range'_succ, List.range'_succ]
  simp only [List.map_cons]
  have h2 : 26 + 2 * k + 1 + 1 = 26 + 2 * (k + 1) := by omega
  rw [h2]

theorem wstr_name_length : (wstr "Wintun\\Wintun-Name-Mutex-").length = 25 := by rfl

theorem MutexNamePrefix_length : MutexNamePrefix.length = 26 := by rfl

theorem mutexName_initial (stack : Nat → WCHAR) :
    MutexNamePrefix ++ ((List.range (MutexNamePrefix.length + 32 * 2)).map stack).drop
        MutexNamePrefix.length =
      wstr "Wintun\\Wintun-Name-Mutex-" ++ 0 :: stackTail stack 0 := by
  have h : (List.range 90).drop 26 = List.range' 26 64 := by decide
  rw [MutexNamePrefix_length, ← List.map_drop, h]
  simp [MutexNamePrefix, stackTail]

/-- The buffer after the first `k` renderings of the loop of lines 129-130. -/
theorem render_loop (stack : Nat → WCHAR) (Hash : List BYTE) (k : Nat) (hk : k ≤ 32) :
    (List.range k).foldl
        (fun buf i => swprintf_s_02x buf (MutexNamePrefix.length - 1 + i * 2) (Hash.getD i 0))
        (wstr "Wintun\\Wintun-Name-Mutex-" ++ 0 :: stackTail stack 0) =
      wstr "Wintun\\Wintun-Name-Mutex-" ++ hexOf Hash k ++ 0 :: stackTail stack k := by
  induction k with
  | zero => simp [hexOf]
  | succ k ih =>
    rw [List.range_succ, List.foldl_append, ih (by omega)]
    simp only [List.foldl_cons, List.foldl_nil]
    rw [stackTail_step stack k (by omega)]
    have hoff : MutexNamePrefix.length - 1 + k * 2 =
        (wstr "Wintun\\Wintun-Name-Mutex-" ++ hexOf Hash k).length := by
      rw [List.length_append, hexOf_length, wstr_name_length, MutexNamePrefix_length]; omega
    rw [hoff, swprintf_s_02x_at, hexOf_succ]
    simp

/-- The whole buffer `MutexName` when `CreateMutexW` is called. -/
theorem buildMutexName_eq (stack : Nat → WCHAR) (Hash : List BYTE) :
    buildMutexName stack Hash = wstr "Wintun\\Wintun-Name-Mutex-" ++ hexOf Hash 32 ++ [0] := by
  unfold buildMutexName
  simp only []
  rw [mutexName_initial, render_loop stack Hash 32 (le_refl 32)]
  simp [stackTail]

theorem hexDigit_ne_zero (d : Nat) : hexDigit d ≠ 0 := by
  unfold hexDigit
  split
  · exact Nat.ne_of_gt (by omega)
  · exact Nat.ne_of_gt (by omega)

theorem hexOf_ne_zero (Hash : List BYTE) (k : Nat) : ∀ c ∈ hexOf Hash k, c ≠ 0 := by
  intro c hc
  simp only [hexOf, List.mem_flatMap, List.mem_range, List.mem_cons, List.mem_singleton,
    List.not_mem_nil, or_false] at hc
  obtain ⟨i, -, h | h⟩ := hc <;> rw [h] <;> exact hexDigit_ne_zero _

theorem wstr_name_ne_zero : ∀ c ∈ wstr "Wintun\\Wintun-Name-Mutex-", c ≠ 0 := by
  decide

/-- A string read at a buffer ends at the first NUL. -/
theorem cstr_append_nul (A B : List WCHAR) (hA : ∀ c ∈ A, c ≠ 0) :
    cstr (A ++ 0 :: B) = A := by
  induction A with
  | nil => simp [cstr]
  | cons a t ih =>
    have ha : a ≠ 0 := hA a (List.mem_cons_self _ _)
    have ht : ∀ c ∈ t, c ≠ 0 := fun c hc => hA c (List.mem_cons_of_mem _ hc)
    have := ih ht
    simp only [cstr] at this ⊢
    simp only [List.cons_append, List.takeWhile_cons, ha, ne_eq, not_false_eq_true,
      decide_True, if_true, this]

theorem digest_length (sha256 : List BYTE → List BYTE) (fed : List BYTE) :
    (digest sha256 fed).length = 32 := by
  simp [digest]

theorem digest_getD (sha256 : List BYTE → List BYTE) (fed : List BYTE) (i : Nat)
    (hi : i < 32) : (digest sha256 fed).getD i 0 = (sha256 fed).getD i 0 % 256 := by
  unfold digest
  rw [List.getD_eq_getElem _ _ (by simpa using hi)]
  simp

/-- On a digest, what the loop writes is the lowercase hexadecimal rendering. -/
theorem hexOf_digest (sha256 : List BYTE → List BYTE) (fed : List BYTE) :
    hexOf (digest sha256 fed) 32 = lowerHex (digest sha256 fed) := by
  have key : ∀ i ∈ List.range 32,
      [hexDigit ((digest sha256 fed).getD i 0 / 16),
        hexDigit ((digest sha256 fed).getD i 0 % 16)] =
      [("0123456789abcdef".toList.getD ((sha256 fed).getD i 0 % 256 / 16) '0').toNat,
        ("0123456789abcdef".toList.getD ((sha256 fed).getD i 0 % 256 % 16) '0').toNat] := by
    intro i hi
    rw [List.mem_range] at hi
    rw [digest_getD _ _ _ hi, hexDigit_eq_table _ (by omega), hexDigit_eq_table _ (by omega)]
  unfold hexOf lowerHex
  rw [List.flatMap, List.flatMap, List.map_congr_left key]
  simp [digest, List.map_map, Function.comp_def]

/-- The name `CreateMutexW` reads from `MutexName` after lines 127-130. -/
theorem cstr_buildMutexName (stack : Nat → WCHAR) (sha256 : List BYTE → List BYTE)
    (fed : List BYTE) :
    cstr (buildMutexName stack (digest sha256 fed)) =
      wstr "Wintun\\Wintun-Name-Mutex-" ++ lowerHex (digest sha256 fed) := by
  rw [buildMutexName_eq, cstr_append_nul, hexOf_digest]
  intro c hc
  rcases List.mem_append.mp hc with h | h
  · exact wstr_name_ne_zero c h
  · exact hexOf_ne_zero _ _ c h

theorem lowerHex_digest_length (sha256 : List BYTE → List BYTE) (fed : List BYTE) :
    (lowerHex (digest sha256 fed)).length = 64 := by
  rw [← hexOf_digest, hexOf_length]

/-! ## Lemmas on traces -/

/-- Every result of the namespace loop arises from the four exits, preceded by
rounds of a create and an open. -/
theorem namespaceLoop_elim (Boundary : HANDLE) (Q : Except DWORD Unit → List Event → Prop)
    (hcreated : Q (.ok ()) [.CreatePrivateNamespaceW Boundary])
    (hopened : Q (.ok ())
      [.CreatePrivateNamespaceW Boundary, .OpenPrivateNamespaceW Boundary])
    (hcreateErr : ∀ code, Q (.error code) [.CreatePrivateNamespaceW Boundary])
    (hopenErr : ∀ code, Q (.error code)
      [.CreatePrivateNamespaceW Boundary, .OpenPrivateNamespaceW Boundary])
    (hround : ∀ r tl, Q r tl →
      Q r (.CreatePrivateNamespaceW Boundary :: .OpenPrivateNamespaceW Boundary :: tl))
    (ns : List OsRet) :
    ∀ r tl, namespaceLoop Boundary ns = some (r, tl) → Q r tl := by
  induction ns using namespaceLoop.induct Boundary with
  | case1 => intro r tl h; simp [namespaceLoop] at h
  | case2 c rest hc =>
    intro r tl h
    unfold namespaceLoop at h
    simp [hc] at h
    obtain ⟨rfl, rfl⟩ := h
    exact hcreated
  | case3 c hc he =>
    intro r tl h
    simp [namespaceLoop, hc, he] at h
  | case4 c hc he o rest ho =>
    intro r tl h
    simp [namespaceLoop, hc, he, ho] at h
    obtain ⟨rfl, rfl⟩ := h
    exact hopened
  | case5 c hc he o rest ho hp hrec ih =>
    intro r tl h
    simp [namespaceLoop, hc, he, ho, hp, hrec] at h
  | case6 c hc he o rest ho hp r' tl' hrec ih =>
    intro r tl h
    simp [namespaceLoop, hc, he, ho, hp, hrec] at h
    obtain ⟨rfl, rfl⟩ := h
    exact hround _ _ (ih _ _ hrec)
  | case7 c hc he o rest ho hp =>
    intro r tl h
    simp [namespaceLoop, hc, he, ho, hp] at h
    obtain ⟨rfl, rfl⟩ := h
    exact hopenErr _
  | case8 c rest hc he =>
    intro r tl h
    unfold namespaceLoop at h
    simp [hc, he] at h
    obtain ⟨rfl, rfl⟩ := h
    exact hcreateErr _

/-- Every result of the normalization loop arises from its three exits,
preceded by rounds of an allocation, a too-small attempt and a free. -/
theorem normalizeLoop_elim (Source : List WCHAR)
    (Q : Option (HANDLE × List WCHAR) → List Event → Prop)
    (hoom : ∀ Len, Q none [.HeapAlloc Len, .LoggerLog "NormalizeStringAlloc: Out of memory"])
    (hok : ∀ Len mem out, Q (some (mem, out)) [.HeapAlloc Len, .NormalizeString Source Len])
    (hfail : ∀ Len mem err, Q none
      [.HeapAlloc Len, .NormalizeString Source Len, .HeapFree mem,
       .LoggerError "NormalizeStringAlloc: Failed" err])
    (hround : ∀ Len mem r tl, Q r tl →
      Q r (.HeapAlloc Len :: .NormalizeString Source Len :: .HeapFree mem :: tl))
    (Len : Int) (attempts : List NormAttempt) :
    ∀ r tl, normalizeLoop Source Len attempts = some (r, tl) → Q r tl := by
  induction Len, attempts using normalizeLoop.induct Source with
  | case1 Len => intro r tl h; simp [normalizeLoop] at h
  | case2 Len a rest ha =>
    intro r tl h
    simp [normalizeLoop, ha] at h
    obtain ⟨rfl, rfl⟩ := h
    exact hoom _
  | case3 Len a rest ha hr =>
    intro r tl h
    simp [normalizeLoop, ha, hr] at h
    obtain ⟨rfl, rfl⟩ := h
    exact hok _ _ _
  | case4 Len a rest ha hr he =>
    intro r tl h
    simp [normalizeLoop, ha, hr, he] at h
    obtain ⟨rfl, rfl⟩ := h
    exact hfail _ _ _
  | case5 Len a rest ha hr he hrec ih =>
    intro r tl h
    simp [normalizeLoop, ha, hr, he, hrec] at h
  | case6 Len a rest ha hr he r' tl' hrec ih =>
    intro r tl h
    simp [normalizeLoop, ha, hr, he, hrec] at h
    obtain ⟨rfl, rfl⟩ := h
    exact hround _ _ _ _ (ih _ _ hrec)

theorem namespaceLoop_events (Boundary : HANDLE) (ns : List OsRet)
    (r : Except DWORD Unit) (tl : List Event)
    (h : namespaceLoop Boundary ns = some (r, tl)) : ∀ e ∈ tl, e.isBootstrap = true := by
  refine namespaceLoop_elim Boundary (fun _ tl => ∀ e ∈ tl, e.isBootstrap = true)
    ?_ ?_ ?_ ?_ ?_ ns r tl h
  · simp [Event.isBootstrap]
  · simp [Event.isBootstrap]
  · simp [Event.isBootstrap]
  · simp [Event.isBootstrap]
  · intro r tl ih e he
    simp only [List.mem_cons] at he
    rcases he with rfl | rfl | he
    · rfl
    · rfl
    · exact ih e he

/-- `NamespaceRuntimeInit` makes bootstrap calls only. -/
theorem NamespaceRuntimeInit_events (s : State) (env : InitEnv) (r : DWORD) (s' : State)
    (tr : List Event) (h : NamespaceRuntimeInit s env = some (r, s', tr)) :
    ∀ e ∈ tr, e.isBootstrap = true := by
  unfold NamespaceRuntimeInit at h
  split at h
  · cases h; simp [Event.isBootstrap]
  split at h
  · cases h; simp [Event.isBootstrap]
  simp only [] at h
  split at h
  · cases h; simp [Event.isBootstrap]
  split at h
  · cases h; simp [Event.isBootstrap]
  split at h
  · cases h; simp [Event.isBootstrap]
  split at h
  · cases h
  · rename_i Result tl hl
    cases h
    have := namespaceLoop_events _ _ _ _ hl
    intro e he
    simp only [List.mem_append, List.mem_cons, List.mem_singleton, List.not_mem_nil,
      or_false] at he
    rcases he with ((rfl | rfl | rfl | rfl | rfl) | he) | (rfl | rfl)
    all_goals first | rfl | exact this e he
  · rename_i tl hl
    cases h
    have := namespaceLoop_events _ _ _ _ hl
    intro e he
    simp only [List.mem_append, List.mem_cons, List.mem_singleton, List.not_mem_nil,
      or_false] at he
    rcases he with ((rfl | rfl | rfl | rfl | rfl) | he) | rfl
    all_goals first | rfl | exact this e he

/-- `NormalizeStringAlloc` makes normalization, heap and logger calls only. -/
theorem NormalizeStringAlloc_events (Source : List WCHAR) (env : NormEnv)
    (r : Option (HANDLE × List WCHAR)) (tr : List Event)
    (h : NormalizeStringAlloc Source env = some (r, tr)) : ∀ e ∈ tr, e.isNormalize = true := by
  unfold NormalizeStringAlloc at h
  cases hl : normalizeLoop Source env.estimate env.attempts with
  | none => simp [hl] at h
  | some p =>
    obtain ⟨r', tl⟩ := p
    simp only [hl, Option.some.injEq, Prod.mk.injEq] at h
    obtain ⟨rfl, rfl⟩ := h
    have key : ∀ e ∈ tl, e.isNormalize = true := by
      refine normalizeLoop_elim Source (fun _ tl => ∀ e ∈ tl, e.isNormalize = true)
        ?_ ?_ ?_ ?_ env.estimate env.attempts r' tl hl
      · intro Len; simp [Event.isNormalize]
      · intro Len mem out; simp [Event.isNormalize]
      · intro Len mem err; simp [Event.isNormalize]
      · intro Len mem r tl ih e he
        simp only [List.mem_cons] at he
        rcases he with rfl | rfl | rfl | he
        · rfl
        · rfl
        · rfl
        · exact ih e he
    intro e he
    rcases List.mem_cons.mp he with rfl | he
    · rfl
    · exact key e he

theorem mutexNames_eq_nil (tr : List Event)
    (h : ∀ e ∈ tr, e.isBootstrap = true ∨ e.isNormalize = true) : mutexNames tr = [] := by
  unfold mutexNames
  rw [List.filterMap_eq_nil_iff]
  intro e he
  rcases h e he with h | h <;> cases e <;> simp_all [Event.isBootstrap, Event.isNormalize]

theorem fedBytes_eq_nil (Hash : HANDLE) (tr : List Event)
    (h : ∀ e ∈ tr, e.isBootstrap = true ∨ e.isNormalize = true) : fedBytes Hash tr = [] := by
  unfold fedBytes
  rw [List.flatMap_eq_nil_iff]
  intro e he
  rcases h e he with h | h <;> cases e <;> simp_all [Event.isBootstrap, Event.isNormalize]

theorem mutexNames_append (a b : List Event) :
    mutexNames (a ++ b) = mutexNames a ++ mutexNames b := by
  simp [mutexNames, List.filterMap_append]

theorem fedBytes_append (Hash : HANDLE) (a b : List Event) :
    fedBytes Hash (a ++ b) = fedBytes Hash a ++ fedBytes Hash b := by
  simp [fedBytes, List.flatMap_append]

/-! ## Lemmas on `NamespaceRuntimeInit` -/

theorem namespaceLoop_created (Boundary : HANDLE) (c : OsRet) (rest : List OsRet)
    (hc : c.ret ≠ 0) :
    namespaceLoop Boundary (c :: rest) =
      some (.ok (), [.CreatePrivateNamespaceW Boundary]) := by
  unfold namespaceLoop
  simp [hc]

theorem namespaceLoop_createErr (Boundary : HANDLE) (c : OsRet) (rest : List OsRet)
    (hc : c.ret = 0) (he : c.err ≠ ERROR_ALREADY_EXISTS) :
    namespaceLoop Boundary (c :: rest) =
      some (.error c.err, [.CreatePrivateNamespaceW Boundary]) := by
  unfold namespaceLoop
  simp [hc, he]

theorem namespaceLoop_opened (Boundary : HANDLE) (c o : OsRet) (rest : List OsRet)
    (hc : c.ret = 0) (he : c.err = ERROR_ALREADY_EXISTS) (ho : o.ret ≠ 0) :
    namespaceLoop Boundary (c :: o :: rest) =
      some (.ok (), [.CreatePrivateNamespaceW Boundary, .OpenPrivateNamespaceW Boundary]) := by
  unfold namespaceLoop
  simp [hc, he, ho]

theorem namespaceLoop_openErr (Boundary : HANDLE) (c o : OsRet) (rest : List OsRet)
    (hc : c.ret = 0) (he : c.err = ERROR_ALREADY_EXISTS) (ho : o.ret = 0)
    (hp : o.err ≠ ERROR_PATH_NOT_FOUND) :
    namespaceLoop Boundary (c :: o :: rest) =
      some (.error o.err,
        [.CreatePrivateNamespaceW Boundary, .OpenPrivateNamespaceW Boundary]) := by
  unfold namespaceLoop
  simp [hc, he, ho, hp]

theorem namespaceLoop_round (Boundary : HANDLE) (c o : OsRet) (rest : List OsRet)
    (hc : c.ret = 0) (he : c.err = ERROR_ALREADY_EXISTS) (ho : o.ret = 0)
    (hp : o.err = ERROR_PATH_NOT_FOUND) :
    namespaceLoop Boundary (c :: o :: rest) =
      (namespaceLoop Boundary rest).map (fun p =>
        (p.1, .CreatePrivateNamespaceW Boundary :: .OpenPrivateNamespaceW Boundary :: p.2)) := by
  conv_lhs => unfold namespaceLoop
  simp only [hc, he, ho, hp, ne_eq, not_true_eq_false, if_false, if_true]
  cases namespaceLoop Boundary rest with
  | none => rfl
  | some p => rfl

/-- A code the loop fails with is the last-error code of a failed call. -/
theorem namespaceLoop_error_code (Boundary : HANDLE) (ns : List OsRet) :
    ∀ code tl, namespaceLoop Boundary ns = some (.error code, tl) →
      ∃ c ∈ ns, c.ret = 0 ∧ c.err = code := by
  induction ns using namespaceLoop.induct Boundary with
  | case1 => intro code tl h; simp [namespaceLoop] at h
  | case2 c rest hc =>
    intro code tl h
    rw [namespaceLoop_created _ _ _ hc] at h
    simp at h
  | case3 c hc he =>
    intro code tl h
    simp [namespaceLoop, hc, he] at h
  | case4 c hc he o rest ho =>
    intro code tl h
    rw [namespaceLoop_opened _ _ _ _ (by simpa using hc) he ho] at h
    simp at h
  | case5 c hc he o rest ho hp hrec ih =>
    intro code tl h
    rw [namespaceLoop_round _ _ _ _ (by simpa using hc) he (by simpa using ho) hp, hrec] at h
    simp at h
  | case6 c hc he o rest ho hp r' tl' hrec ih =>
    intro code tl h
    rw [namespaceLoop_round _ _ _ _ (by simpa using hc) he (by simpa using ho) hp, hrec] at h
    simp only [Option.map_some', Option.some.injEq, Prod.mk.injEq] at h
    obtain ⟨rfl, -⟩ := h
    obtain ⟨x, hx, h1, h2⟩ := ih _ _ hrec
    exact ⟨x, List.mem_cons_of_mem _ (List.mem_cons_of_mem _ hx), h1, h2⟩
  | case7 c hc he o rest ho hp =>
    intro code tl h
    rw [namespaceLoop_openErr _ _ _ _ (by simpa using hc) he (by simpa using ho) hp] at h
    simp only [Option.some.injEq, Prod.mk.injEq, Except.error.injEq] at h
    exact ⟨o, by simp, by simpa using ho, h.1⟩
  | case8 c rest hc he =>
    intro code tl h
    rw [namespaceLoop_createErr _ _ _ (by simpa using hc) he] at h
    simp only [Option.some.injEq, Prod.mk.injEq, Except.error.injEq] at h
    exact ⟨c, by simp, by simpa using hc, h.1⟩

theorem namespaceLoop_boundaryWork (Boundary : HANDLE) (ns : List OsRet)
    (r : Except DWORD Unit) (tl : List Event)
    (h : namespaceLoop Boundary ns = some (r, tl)) : ∀ e ∈ tl, e.isBoundaryWork = true := by
  refine namespaceLoop_elim Boundary (fun _ tl => ∀ e ∈ tl, e.isBoundaryWork = true)
    ?_ ?_ ?_ ?_ ?_ ns r tl h
  · simp [Event.isBoundaryWork]
  · simp [Event.isBoundaryWork]
  · simp [Event.isBoundaryWork]
  · simp [Event.isBoundaryWork]
  · intro r tl ih e he
    simp only [List.mem_cons] at he
    rcases he with rfl | rfl | he
    · rfl
    · rfl
    · exact ih e he

/-- The fast path of lines 44-48. -/
theorem NamespaceRuntimeInit_ready (s : State) (env : InitEnv) (h : s.HasInitialized = true) :
    NamespaceRuntimeInit s env =
      some (ERROR_SUCCESS, s, [.EnterCriticalSection, .LeaveCriticalSection]) := by
  simp [NamespaceRuntimeInit, h]

/-- The run of `NamespaceRuntimeInit` once the provider, SID and boundary steps
have succeeded. -/
theorem NamespaceRuntimeInit_after_prereqs (s : State) (env : InitEnv)
    (hflag : s.HasInitialized = false) (hprov : BCRYPT_SUCCESS env.openProvider = true)
    (hsid : env.sid.ret ≠ 0) (hb : env.boundary.ret ≠ 0) (hadd : env.addSid.ret ≠ 0) :
    NamespaceRuntimeInit s env =
      match namespaceLoop env.boundary.ret env.ns with
      | none => none
      | some (.error Result, tl) =>
        some (Result, { s with AlgProvider := env.provider },
          [.EnterCriticalSection, .BCryptOpenAlgorithmProvider, .CreateWellKnownSid,
           .CreateBoundaryDescriptorW, .AddSIDToBoundaryDescriptor env.boundary.ret] ++ tl ++
          [.BCryptCloseAlgorithmProvider env.provider, .LeaveCriticalSection])
      | some (.ok (), tl) =>
        some (ERROR_SUCCESS, { HasInitialized := true, AlgProvider := env.provider },
          [.EnterCriticalSection, .BCryptOpenAlgorithmProvider, .CreateWellKnownSid,
           .CreateBoundaryDescriptorW, .AddSIDToBoundaryDescriptor env.boundary.ret] ++ tl ++
          [.LeaveCriticalSection]) := by
  unfold NamespaceRuntimeInit
  simp only [hflag, hprov, hsid, hb, hadd, Bool.false_eq_true, if_false, Bool.not_true]

/-- The shapes a finished run of `NamespaceRuntimeInit` can have: the fast
path, a failure to open the provider, a later failure, a success. -/
theorem NamespaceRuntimeInit_cases (s : State) (env : InitEnv) (r : DWORD) (s' : State)
    (tr : List Event) (h : NamespaceRuntimeInit s env = some (r, s', tr)) :
    (s.HasInitialized = true ∧ r = ERROR_SUCCESS ∧ s' = s ∧
      tr = [.EnterCriticalSection, .LeaveCriticalSection]) ∨
    (s.HasInitialized = false ∧ BCRYPT_SUCCESS env.openProvider = false ∧
      r = ERROR_GEN_FAILURE ∧ s' = s ∧
      tr = [.EnterCriticalSection, .BCryptOpenAlgorithmProvider, .LeaveCriticalSection]) ∨
    (s.HasInitialized = false ∧ BCRYPT_SUCCESS env.openProvider = true ∧
      s' = { s with AlgProvider := env.provider } ∧
      (∃ mid, tr = .EnterCriticalSection :: .BCryptOpenAlgorithmProvider :: mid ++
          [.BCryptCloseAlgorithmProvider env.provider, .LeaveCriticalSection] ∧
        ∀ e ∈ mid, e.isBoundaryWork = true) ∧
      ((env.sid.ret = 0 ∧ env.sid.err = r) ∨ (env.boundary.ret = 0 ∧ env.boundary.err = r) ∨
        (env.addSid.ret = 0 ∧ env.addSid.err = r) ∨ ∃ c ∈ env.ns, c.ret = 0 ∧ c.err = r)) ∨
    (s.HasInitialized = false ∧ BCRYPT_SUCCESS env.openProvider = true ∧
      r = ERROR_SUCCESS ∧ s' = { HasInitialized := true, AlgProvider := env.provider } ∧
      ∃ mid, tr = .EnterCriticalSection :: .BCryptOpenAlgorithmProvider :: mid ++
          [.LeaveCriticalSection] ∧
        ∀ e ∈ mid, e.isBoundaryWork = true) := by
  unfold NamespaceRuntimeInit at h
  split at h
  · rename_i hf
    cases h
    exact Or.inl ⟨hf, rfl, rfl, rfl⟩
  rename_i hf
  have hf' : s.HasInitialized = false := by simpa using hf
  split at h
  · rename_i hp
    cases h
    exact Or.inr (Or.inl ⟨hf', by simpa using hp, rfl, rfl, rfl⟩)
  rename_i hp
  have hp' : BCRYPT_SUCCESS env.openProvider = true := by simpa using hp
  simp only [] at h
  split at h
  · rename_i h1
    cases h
    exact Or.inr (Or.inr (Or.inl ⟨hf', hp', rfl,
      ⟨[.CreateWellKnownSid], rfl, by simp [Event.isBoundaryWork]⟩, Or.inl ⟨h1, rfl⟩⟩))
  split at h
  · rename_i h2
    cases h
    exact Or.inr (Or.inr (Or.inl ⟨hf', hp', rfl,
      ⟨[.CreateWellKnownSid, .CreateBoundaryDescriptorW], rfl, by simp [Event.isBoundaryWork]⟩,
      Or.inr (Or.inl ⟨h2, rfl⟩)⟩))
  split at h
  · rename_i h3
    cases h
    exact Or.inr (Or.inr (Or.inl ⟨hf', hp', rfl,
      ⟨[.CreateWellKnownSid, .CreateBoundaryDescriptorW,
        .AddSIDToBoundaryDescriptor env.boundary.ret], rfl, by simp [Event.isBoundaryWork]⟩,
      Or.inr (Or.inr (Or.inl ⟨h3, rfl⟩))⟩))
  cases hl : namespaceLoop env.boundary.ret env.ns with
  | none => simp [hl] at h
  | some p =>
    obtain ⟨res, tl⟩ := p
    have hw := namespaceLoop_boundaryWork _ _ _ _ hl
    cases res with
    | error code =>
      simp only [hl, Option.some.injEq, Prod.mk.injEq] at h
      obtain ⟨rfl, rfl, rfl⟩ := h
      refine Or.inr (Or.inr (Or.inl ⟨hf', hp', rfl,
        ⟨[.CreateWellKnownSid, .CreateBoundaryDescriptorW,
          .AddSIDToBoundaryDescriptor env.boundary.ret] ++ tl, by simp, ?_⟩,
        Or.inr (Or.inr (Or.inr (namespaceLoop_error_code _ _ _ _ hl)))⟩))
      intro e he
      simp only [List.mem_append, List.mem_cons, List.mem_singleton, List.not_mem_nil,
        or_false] at he
      rcases he with (rfl | rfl | rfl) | he
      · rfl
      · rfl
      · rfl
      · exact hw e he
    | ok u =>
      simp only [hl, Option.some.injEq, Prod.mk.injEq] at h
      obtain ⟨rfl, rfl, rfl⟩ := h
      refine Or.inr (Or.inr (Or.inr ⟨hf', hp', rfl, ?_,
        ⟨[.CreateWellKnownSid, .CreateBoundaryDescriptorW,
          .AddSIDToBoundaryDescriptor env.boundary.ret] ++ tl, by simp, ?_⟩⟩))
      · cases s; simp_all
      · intro e he
        simp only [List.mem_append, List.mem_cons, List.mem_singleton, List.not_mem_nil,
          or_false] at he
        rcases he with (rfl | rfl | rfl) | he
        · rfl
        · rfl
        · rfl
        · exact hw e he

theorem createAttempts_append (a b : List Event) :
    createAttempts (a ++ b) = createAttempts a + createAttempts b := by
  simp [createAttempts, List.countP_append]

/-- After `n` race rounds and a successful create the loop exits through
`break` with `n + 1` create calls. -/
theorem namespaceLoop_raceRounds (Boundary : HANDLE) (n : Nat) (c : OsRet) (rest : List OsRet)
    (hc : c.ret ≠ 0) :
    ∃ tl, namespaceLoop Boundary (raceRounds n (c :: rest)) = some (.ok (), tl) ∧
      createAttempts tl = n + 1 := by
  induction n with
  | zero =>
    exact ⟨_, namespaceLoop_created _ _ _ hc, by simp [createAttempts, Event.isCreateNamespace]⟩
  | succ n ih =>
    obtain ⟨tl, h1, h2⟩ := ih
    refine ⟨.CreatePrivateNamespaceW Boundary :: .OpenPrivateNamespaceW Boundary :: tl, ?_, ?_⟩
    · rw [raceRounds, namespaceLoop_round _ _ _ _ rfl rfl rfl rfl, h1]
      rfl
    · simp only [createAttempts, List.countP_cons, Event.isCreateNamespace] at h2 ⊢
      simp [h2]

/-- When failed calls report non-zero codes, a run returning `ERROR_SUCCESS`
leaves the ready flag set. -/
theorem NamespaceRuntimeInit_success_ready (s : State) (env : InitEnv) (s' : State)
    (tr : List Event) (hos : env.failuresReported = true)
    (h : NamespaceRuntimeInit s env = some (ERROR_SUCCESS, s', tr)) :
    s'.HasInitialized = true := by
  simp only [InitEnv.failuresReported, OsRet.reportsFailure, Bool.and_eq_true,
    Bool.or_eq_true, decide_eq_true_eq, List.all_eq_true] at hos
  obtain ⟨⟨⟨h1, h2⟩, h3⟩, h4⟩ := hos
  rcases NamespaceRuntimeInit_cases s env _ s' tr h with
    ⟨hf, -, rfl, -⟩ | ⟨-, -, hr, -⟩ | ⟨-, -, -, -, hcode⟩ | ⟨-, -, -, rfl, -⟩
  · exact hf
  · exact absurd hr (by decide)
  · rcases hcode with ⟨a, b⟩ | ⟨a, b⟩ | ⟨a, b⟩ | ⟨c, hc, a, b⟩
    · rcases h1 with h | h
      · exact absurd a h
      · exact absurd b h
    · rcases h2 with h | h
      · exact absurd a h
      · exact absurd b h
    · rcases h3 with h | h
      · exact absurd a h
      · exact absurd b h
    · rcases h4 c hc with h | h
      · exact absurd a h
      · exact absurd b h
  · rfl

theorem runtimeInitCalls_ready (s : State) (hs : s.HasInitialized = true)
    (envs : List InitEnv) :
    runtimeInitCalls s envs =
      some (s, envs.map (fun _ =>
        (ERROR_SUCCESS, [Event.EnterCriticalSection, Event.LeaveCriticalSection]))) := by
  induction envs with
  | nil => rfl
  | cons env rest ih =>
    simp [runtimeInitCalls, NamespaceRuntimeInit_ready s env hs, ih]

theorem countP_isLog_bootstrap (tr : List Event) (h : ∀ e ∈ tr, e.isBootstrap = true) :
    tr.countP Event.isLog = 0 := by
  rw [List.countP_eq_zero]
  intro e he
  have := h e he
  cases e <;> simp_all [Event.isBootstrap, Event.isLog]

/-- `NormalizeStringAlloc` calls the logger once when it returns `NULL`, and
not at all otherwise. -/
theorem NormalizeStringAlloc_logs (Source : List WCHAR) (env : NormEnv)
    (r : Option (HANDLE × List WCHAR)) (tr : List Event)
    (h : NormalizeStringAlloc Source env = some (r, tr)) :
    tr.countP Event.isLog = if r = none then 1 else 0 := by
  unfold NormalizeStringAlloc at h
  cases hl : normalizeLoop Source env.estimate env.attempts with
  | none => simp [hl] at h
  | some p =>
    obtain ⟨r', tl⟩ := p
    simp only [hl, Option.some.injEq, Prod.mk.injEq] at h
    obtain ⟨rfl, rfl⟩ := h
    have key : tl.countP Event.isLog = if r' = none then 1 else 0 := by
      refine normalizeLoop_elim Source
        (fun r tl => tl.countP Event.isLog = if r = none then 1 else 0)
        ?_ ?_ ?_ ?_ env.estimate env.attempts r' tl hl
      · intro Len; simp [List.countP_cons, Event.isLog]
      · intro Len mem out; simp [List.countP_cons, Event.isLog]
      · intro Len mem err; simp [List.countP_cons, Event.isLog]
      · intro Len mem r tl ih
        simpa [List.countP_cons, Event.isLog] using ih
    simpa [List.countP_cons, Event.isLog] using key

/-- The run of `NamespaceTakePoolMutex` once the name has been derived. -/
theorem NamespaceTakePoolMutex_derived (Pool : List WCHAR) (s : State) (env : PoolEnv)
    (s1 : State) (t0 : List Event) (mem : HANDLE) (PoolNorm : List WCHAR) (tn : List Event)
    (hinit : NamespaceRuntimeInit s env.init = some (ERROR_SUCCESS, s1, t0))
    (hcreate : BCRYPT_SUCCESS env.createHash = true)
    (hlabel : BCRYPT_SUCCESS env.hashLabel = true)
    (hnorm : NormalizeStringAlloc Pool env.norm = some (some (mem, PoolNorm), tn))
    (hpool : BCRYPT_SUCCESS env.hashPool = true)
    (hfin : BCRYPT_SUCCESS env.finishHash = true) :
    NamespaceTakePoolMutex Pool s env =
      some
        (if env.createMutex = NULL then NULL
          else if env.wait = WAIT_OBJECT_0 ∨ env.wait = WAIT_ABANDONED then env.createMutex
          else NULL,
         s1,
         t0 ++ [.BCryptCreateHash s1.AlgProvider,
                .BCryptHashData env.hashHandle (readBytes mutex_label (2 * mutex_label.length))] ++
           tn ++ [.BCryptHashData env.hashHandle (readBytes PoolNorm (wcslen PoolNorm + 2))] ++
           [.BCryptFinishHash env.hashHandle,
            .CreateMutexW (cstr (buildMutexName env.stack (digest env.sha256
              (readBytes mutex_label (2 * mutex_label.length) ++
                readBytes PoolNorm (wcslen PoolNorm + 2)))))] ++
           (if env.createMutex = NULL then []
            else if env.wait = WAIT_OBJECT_0 ∨ env.wait = WAIT_ABANDONED then
              [.WaitForSingleObject env.createMutex]
            else [.WaitForSingleObject env.createMutex, .CloseHandle env.createMutex]) ++
           [.HeapFree mem, .BCryptDestroyHash env.hashHandle]) := by
  unfold NamespaceTakePoolMutex
  simp only [hinit, hcreate, hlabel, hnorm, hpool, hfin, ne_eq, not_true_eq_false, if_false,
    Bool.not_true, Bool.false_eq_true]
  by_cases hm : env.createMutex = NULL
  · simp [hm]
  · by_cases hw : env.wait = WAIT_OBJECT_0 ∨ env.wait = WAIT_ABANDONED
    · simp [hm, hw]
    · simp [hm, hw]

set_option maxRecDepth 100000

/-! ## Name derivation: what is hashed -/

/-- C1 (evaluation at the failing input): for the pool identifier `Local`, whose
normalized form has 5 code units, the bytes fed to the hash object are the
label with its terminator followed by only `5 + 2 = 7` bytes of the normalized
identifier (`L o c a` cut after the low byte of `a`), not the `2 * 5 + 2 = 12`
bytes of the whole identifier with its terminator. -/
theorem NamespaceTakePoolMutex_hashes_truncated_pool :
    (NamespaceTakePoolMutex (wstr "Local") NamespaceInit
        (poolOk sampleSha (wstr "Local") WAIT_OBJECT_0)).map
        (fun r => fedBytes 5 r.2.2) =
      some (bytesOf (wstr "Wintun Adapter Name Mutex Stable Suffix v1 jason@zx2c4.com" ++ [0]) ++
        [76, 0, 111, 0, 99, 0, 97]) ∧
    bytesOf (wstr "Local" ++ [0]) = [76, 0, 111, 0, 99, 0, 97, 0, 108, 0, 0, 0] ∧
    [76, 0, 111, 0, 99, 0, 97] ≠ bytesOf (wstr "Local" ++ [0]) := by
  refine ⟨by rfl, by rfl, by decide⟩

/-- C2 (evaluation at the failing input): the pool identifiers `abcd` and
`abce` are distinct and already normalized, yet `NamespaceTakePoolMutex` feeds
the same bytes to the hash for both (the label, then `a b c` only), so whatever
function the provider computes, both runs pass the same name to
`CreateMutexW`. -/
theorem NamespaceTakePoolMutex_distinct_pools_same_name (sha256 : List BYTE → List BYTE) :
    wstr "abcd" ≠ wstr "abce" ∧
    (NamespaceTakePoolMutex (wstr "abcd") NamespaceInit
        (poolOk sha256 (wstr "abcd") WAIT_OBJECT_0)).map (fun r => fedBytes 5 r.2.2) =
      some (bytesOf mutex_label ++ [97, 0, 98, 0, 99, 0]) ∧
    (NamespaceTakePoolMutex (wstr "abce") NamespaceInit
        (poolOk sha256 (wstr "abce") WAIT_OBJECT_0)).map (fun r => fedBytes 5 r.2.2) =
      some (bytesOf mutex_label ++ [97, 0, 98, 0, 99, 0]) ∧
    (NamespaceTakePoolMutex (wstr "abcd") NamespaceInit
        (poolOk sha256 (wstr "abcd") WAIT_OBJECT_0)).map (fun r => mutexNames r.2.2) =
      (NamespaceTakePoolMutex (wstr "abce") NamespaceInit
        (poolOk sha256 (wstr "abce") WAIT_OBJECT_0)).map (fun r => mutexNames r.2.2) := by
  refine ⟨by decide, by rfl, by rfl, by rfl⟩

/-! ## Name derivation: the name -/

/-- C3: whenever derivation succeeds (bootstrap, the hash calls and the
normalization all succeed), `NamespaceTakePoolMutex` returns and passes exactly
one name to `CreateMutexW`: the prefix `Wintun\Wintun-Name-Mutex-` followed by
the two-digit lowercase hexadecimal rendering of the 32 digest bytes in order,
the digest being that of the bytes fed to the hash object; the name has
`25 + 64 = 89` code units whatever the pool identifier. -/
theorem NamespaceTakePoolMutex_name_format (Pool : List WCHAR) (s : State) (env : PoolEnv)
    (s1 : State) (t0 : List Event) (mem : HANDLE) (PoolNorm : List WCHAR) (tn : List Event)
    (hinit : NamespaceRuntimeInit s env.init = some (ERROR_SUCCESS, s1, t0))
    (hcreate : BCRYPT_SUCCESS env.createHash = true)
    (hlabel : BCRYPT_SUCCESS env.hashLabel = true)
    (hnorm : NormalizeStringAlloc Pool env.norm = some (some (mem, PoolNorm), tn))
    (hpool : BCRYPT_SUCCESS env.hashPool = true)
    (hfin : BCRYPT_SUCCESS env.finishHash = true) :
    ∃ r tr, NamespaceTakePoolMutex Pool s env = some (r, s1, tr) ∧
      mutexNames tr =
        [wstr "Wintun\\Wintun-Name-Mutex-" ++
          lowerHex (digest env.sha256 (fedBytes env.hashHandle tr))] ∧
      (digest env.sha256 (fedBytes env.hashHandle tr)).length = 32 ∧
      (wstr "Wintun\\Wintun-Name-Mutex-").length = 25 ∧
      (lowerHex (digest env.sha256 (fedBytes env.hashHandle tr))).length = 64 ∧
      (wstr "Wintun\\Wintun-Name-Mutex-" ++
          lowerHex (digest env.sha256 (fedBytes env.hashHandle tr))).length = 89 := by
  have h0 : ∀ e ∈ t0, e.isBootstrap = true ∨ e.isNormalize = true :=
    fun e he => Or.inl (NamespaceRuntimeInit_events _ _ _ _ _ hinit e he)
  have hn : ∀ e ∈ tn, e.isBootstrap = true ∨ e.isNormalize = true :=
    fun e he => Or.inr (NormalizeStringAlloc_events _ _ _ _ hnorm e he)
  refine ⟨_, _, NamespaceTakePoolMutex_derived Pool s env s1 t0 mem PoolNorm tn
    hinit hcreate hlabel hnorm hpool hfin, ?_, ?_, ?_, ?_, ?_⟩
  · have hW : mutexNames
          (if env.createMutex = NULL then []
            else if env.wait = WAIT_OBJECT_0 ∨ env.wait = WAIT_ABANDONED then
              [Event.WaitForSingleObject env.createMutex]
            else [.WaitForSingleObject env.createMutex, .CloseHandle env.createMutex]) = [] := by
      split_ifs <;> simp [mutexNames]
    have hF : fedBytes env.hashHandle
          (if env.createMutex = NULL then []
            else if env.wait = WAIT_OBJECT_0 ∨ env.wait = WAIT_ABANDONED then
              [Event.WaitForSingleObject env.createMutex]
            else [.WaitForSingleObject env.createMutex, .CloseHandle env.createMutex]) = [] := by
      split_ifs <;> simp [fedBytes]
    simp only [mutexNames_append, fedBytes_append, mutexNames_eq_nil t0 h0,
      mutexNames_eq_nil tn hn, fedBytes_eq_nil _ t0 h0, fedBytes_eq_nil _ tn hn, hW, hF]
    simp [mutexNames, fedBytes, cstr_buildMutexName]
  · exact digest_length _ _
  · rfl
  · exact lowerHex_digest_length _ _
  · rw [List.length_append, lowerHex_digest_length]; rfl

/-- C3 at a concrete run: pool identifier `Local`, every call succeeding. -/
theorem NamespaceTakePoolMutex_name_format_witness :
    ∃ r tr, NamespaceTakePoolMutex (wstr "Local") NamespaceInit
        (poolOk sampleSha (wstr "Local") WAIT_OBJECT_0) =
        some (r, { HasInitialized := true, AlgProvider := 7 }, tr) ∧
      mutexNames tr =
        [wstr "Wintun\\Wintun-Name-Mutex-" ++ lowerHex (digest sampleSha (fedBytes 5 tr))] ∧
      (digest sampleSha (fedBytes 5 tr)).length = 32 ∧
      (wstr "Wintun\\Wintun-Name-Mutex-").length = 25 ∧
      (lowerHex (digest sampleSha (fedBytes 5 tr))).length = 64 ∧
      (wstr "Wintun\\Wintun-Name-Mutex-" ++
          lowerHex (digest sampleSha (fedBytes 5 tr))).length = 89 :=
  NamespaceTakePoolMutex_name_format (wstr "Local") NamespaceInit
    (poolOk sampleSha (wstr "Local") WAIT_OBJECT_0)
    { HasInitialized := true, AlgProvider := 7 }
    [.EnterCriticalSection, .BCryptOpenAlgorithmProvider, .CreateWellKnownSid,
      .CreateBoundaryDescriptorW, .AddSIDToBoundaryDescriptor 9, .CreatePrivateNamespaceW 9,
      .LeaveCriticalSection]
    100 (wstr "Local" ++ [0])
    [.NormalizeString (wstr "Local") 0, .HeapAlloc 6, .NormalizeString (wstr "Local") 6]
    (by rfl) (by rfl) (by rfl) (by rfl) (by rfl) (by rfl)

/-! ## Waiting for the mutex -/

/-- C4: in both `NamespaceTakePoolMutex` (once the name has been derived) and
`NamespaceTakeDriverInstallationMutex` (once bootstrap has succeeded), for every
handle `Mutex` returned by `CreateMutexW` and every value `w` returned by the
infinite wait: if `Mutex` is `NULL` the function returns `NULL` without waiting;
otherwise if `w` is `WAIT_OBJECT_0` or `WAIT_ABANDONED` it returns `Mutex`
without closing it, and for every other `w` it closes `Mutex` and returns
`NULL`. -/
theorem take_mutex_wait_outcomes :
    (∀ (Pool : List WCHAR) (s : State) (env : PoolEnv) (s1 : State) (t0 : List Event)
        (mem : HANDLE) (PoolNorm : List WCHAR) (tn : List Event),
      NamespaceRuntimeInit s env.init = some (ERROR_SUCCESS, s1, t0) →
      BCRYPT_SUCCESS env.createHash = true →
      BCRYPT_SUCCESS env.hashLabel = true →
      NormalizeStringAlloc Pool env.norm = some (some (mem, PoolNorm), tn) →
      BCRYPT_SUCCESS env.hashPool = true →
      BCRYPT_SUCCESS env.finishHash = true →
      ∃ (pre : List Event) (name : List WCHAR), ∀ (Mutex : HANDLE) (w : DWORD),
        NamespaceTakePoolMutex Pool s { env with createMutex := Mutex, wait := w } =
          some
            (if Mutex = NULL then
              (NULL, s1, pre ++ [.CreateMutexW name] ++
                [.HeapFree mem, .BCryptDestroyHash env.hashHandle])
            else if w = WAIT_OBJECT_0 ∨ w = WAIT_ABANDONED then
              (Mutex, s1, pre ++ [.CreateMutexW name, .WaitForSingleObject Mutex] ++
                [.HeapFree mem, .BCryptDestroyHash env.hashHandle])
            else
              (NULL, s1,
                pre ++ [.CreateMutexW name, .WaitForSingleObject Mutex, .CloseHandle Mutex] ++
                [.HeapFree mem, .BCryptDestroyHash env.hashHandle]))) ∧
    (∀ (s : State) (env : DriverEnv) (s1 : State) (t0 : List Event),
      NamespaceRuntimeInit s env.init = some (ERROR_SUCCESS, s1, t0) →
      ∀ (Mutex : HANDLE) (w : DWORD),
        NamespaceTakeDriverInstallationMutex s { env with createMutex := Mutex, wait := w } =
          some
            (if Mutex = NULL then
              (NULL, s1, t0 ++ [.CreateMutexW DriverInstallationMutexName])
            else if w = WAIT_OBJECT_0 ∨ w = WAIT_ABANDONED then
              (Mutex, s1,
                t0 ++ [.CreateMutexW DriverInstallationMutexName, .WaitForSingleObject Mutex])
            else
              (NULL, s1,
                t0 ++ [.CreateMutexW DriverInstallationMutexName, .WaitForSingleObject Mutex,
                  .CloseHandle Mutex]))) := by
  constructor
  · intro Pool s env s1 t0 mem PoolNorm tn hinit hcreate hlabel hnorm hpool hfin
    refine ⟨t0 ++ [.BCryptCreateHash s1.AlgProvider,
        .BCryptHashData env.hashHandle (readBytes mutex_label (2 * mutex_label.length))] ++
        tn ++ [.BCryptHashData env.hashHandle (readBytes PoolNorm (wcslen PoolNorm + 2)),
        .BCryptFinishHash env.hashHandle],
      cstr (buildMutexName env.stack (digest env.sha256
        (readBytes mutex_label (2 * mutex_label.length) ++
          readBytes PoolNorm (wcslen PoolNorm + 2)))),
      fun Mutex w => ?_⟩
    rw [NamespaceTakePoolMutex_derived Pool s { env with createMutex := Mutex, wait := w }
      s1 t0 mem PoolNorm tn hinit hcreate hlabel hnorm hpool hfin]
    by_cases hm : Mutex = NULL
    · simp only [hm, if_true, List.append_nil, List.append_assoc]
      rfl
    · by_cases hw : w = WAIT_OBJECT_0 ∨ w = WAIT_ABANDONED
      · simp only [hm, hw, if_true, if_false, List.append_assoc, List.cons_append,
          List.nil_append]
      · simp only [hm, hw, if_false, List.append_assoc, List.cons_append, List.nil_append]
  · intro s env s1 t0 hinit Mutex w
    unfold NamespaceTakeDriverInstallationMutex
    simp only [hinit, ne_eq, not_true_eq_false, if_false]
    by_cases hm : Mutex = NULL
    · simp [hm]
    · by_cases hw : w = WAIT_OBJECT_0 ∨ w = WAIT_ABANDONED
      · simp [hm, hw]
      · simp [hm, hw]

/-- C4 at concrete runs in which the wait reports an abandoned mutex, and a run
in which it fails with `WAIT_FAILED`. -/
theorem take_mutex_wait_outcomes_witness :
    (∃ (pre : List Event) (name : List WCHAR),
      NamespaceTakePoolMutex (wstr "Local") NamespaceInit
          (poolOk sampleSha (wstr "Local") WAIT_ABANDONED) =
        some (77, { HasInitialized := true, AlgProvider := 7 },
          pre ++ [.CreateMutexW name, .WaitForSingleObject 77] ++
            [.HeapFree 100, .BCryptDestroyHash 5])) ∧
    NamespaceTakeDriverInstallationMutex NamespaceInit (driverOk WAIT_ABANDONED) =
      some (77, { HasInitialized := true, AlgProvider := 7 },
        [.EnterCriticalSection, .BCryptOpenAlgorithmProvider, .CreateWellKnownSid,
          .CreateBoundaryDescriptorW, .AddSIDToBoundaryDescriptor 9,
          .CreatePrivateNamespaceW 9, .LeaveCriticalSection] ++
        [.CreateMutexW DriverInstallationMutexName, .WaitForSingleObject 77]) ∧
    NamespaceTakeDriverInstallationMutex NamespaceInit (driverOk 0xFFFFFFFF) =
      some (NULL, { HasInitialized := true, AlgProvider := 7 },
        [.EnterCriticalSection, .BCryptOpenAlgorithmProvider, .CreateWellKnownSid,
          .CreateBoundaryDescriptorW, .AddSIDToBoundaryDescriptor 9,
          .CreatePrivateNamespaceW 9, .LeaveCriticalSection] ++
        [.CreateMutexW DriverInstallationMutexName, .WaitForSingleObject 77,
          .CloseHandle 77]) :=
  ⟨(take_mutex_wait_outcomes.1 (wstr "Local") NamespaceInit
      (poolOk sampleSha (wstr "Local") WAIT_OBJECT_0)
      { HasInitialized := true, AlgProvider := 7 }
      [.EnterCriticalSection, .BCryptOpenAlgorithmProvider, .CreateWellKnownSid,
        .CreateBoundaryDescriptorW, .AddSIDToBoundaryDescriptor 9, .CreatePrivateNamespaceW 9,
        .LeaveCriticalSection]
      100 (wstr "Local" ++ [0])
      [.NormalizeString (wstr "Local") 0, .HeapAlloc 6, .NormalizeString (wstr "Local") 6]
      (by rfl) (by rfl) (by rfl) (by rfl) (by rfl) (by rfl)).elim
      (fun pre h => h.elim (fun name h => ⟨pre, name, h 77 WAIT_ABANDONED⟩)),
    take_mutex_wait_outcomes.2 NamespaceInit (driverOk WAIT_OBJECT_0)
      { HasInitialized := true, AlgProvider := 7 } _ (by rfl) 77 WAIT_ABANDONED,
    take_mutex_wait_outcomes.2 NamespaceInit (driverOk WAIT_OBJECT_0)
      { HasInitialized := true, AlgProvider := 7 } _ (by rfl) 77 0xFFFFFFFF⟩

/-! ## Bootstrap: the create / open protocol -/

/-- C6: in `NamespaceRuntimeInit`, once the provider, SID and boundary steps
have succeeded, for every sequence of outcomes of the namespace calls:
(1) a create that succeeds gives `ERROR_SUCCESS`; (2) a create reporting
already-exists followed by an open that succeeds gives `ERROR_SUCCESS`;
(3) a create reporting already-exists followed by an open reporting
path-not-found makes the run continue as a run on the remaining outcomes, with
one more create attempt; (4) a create failing with another code returns that
code; (5) an open failing with another code returns that code; in cases (1),
(2), (4), (5) the run returns after that single create attempt; (6) after `n`
rounds of (already-exists, path-not-found) and a successful create the run
returns `ERROR_SUCCESS` after exactly `n + 1` create attempts. -/
theorem NamespaceRuntimeInit_create_open_protocol (s : State) (env : InitEnv)
    (hflag : s.HasInitialized = false) (hprov : BCRYPT_SUCCESS env.openProvider = true)
    (hsid : env.sid.ret ≠ 0) (hb : env.boundary.ret ≠ 0) (hadd : env.addSid.ret ≠ 0) :
    (∀ c rest, env.ns = c :: rest → c.ret ≠ 0 →
      ∃ tr, NamespaceRuntimeInit s env =
          some (ERROR_SUCCESS, { HasInitialized := true, AlgProvider := env.provider }, tr) ∧
        createAttempts tr = 1) ∧
    (∀ c o rest, env.ns = c :: o :: rest →
      c.ret = 0 → c.err = ERROR_ALREADY_EXISTS → o.ret ≠ 0 →
      ∃ tr, NamespaceRuntimeInit s env =
          some (ERROR_SUCCESS, { HasInitialized := true, AlgProvider := env.provider }, tr) ∧
        createAttempts tr = 1) ∧
    (∀ c o rest, env.ns = c :: o :: rest →
      c.ret = 0 → c.err = ERROR_ALREADY_EXISTS → o.ret = 0 → o.err = ERROR_PATH_NOT_FOUND →
      (NamespaceRuntimeInit s env).map (fun x => (x.1, x.2.1, createAttempts x.2.2)) =
        (NamespaceRuntimeInit s { env with ns := rest }).map
          (fun x => (x.1, x.2.1, createAttempts x.2.2 + 1))) ∧
    (∀ c rest, env.ns = c :: rest → c.ret = 0 → c.err ≠ ERROR_ALREADY_EXISTS →
      ∃ tr, NamespaceRuntimeInit s env =
          some (c.err, { HasInitialized := false, AlgProvider := env.provider }, tr) ∧
        createAttempts tr = 1) ∧
    (∀ c o rest, env.ns = c :: o :: rest →
      c.ret = 0 → c.err = ERROR_ALREADY_EXISTS → o.ret = 0 → o.err ≠ ERROR_PATH_NOT_FOUND →
      ∃ tr, NamespaceRuntimeInit s env =
          some (o.err, { HasInitialized := false, AlgProvider := env.provider }, tr) ∧
        createAttempts tr = 1) ∧
    (∀ n c rest, env.ns = raceRounds n (c :: rest) → c.ret ≠ 0 →
      ∃ tr, NamespaceRuntimeInit s env =
          some (ERROR_SUCCESS, { HasInitialized := true, AlgProvider := env.provider }, tr) ∧
        createAttempts tr = n + 1) := by
  have hs : ({ s with AlgProvider := env.provider } : State) =
      { HasInitialized := false, AlgProvider := env.provider } := by
    cases s; simp_all
  have hrun := NamespaceRuntimeInit_after_prereqs s env hflag hprov hsid hb hadd
  refine ⟨?_, ?_, ?_, ?_, ?_, ?_⟩
  · intro c rest hns hc
    rw [hns, namespaceLoop_created _ _ _ hc] at hrun
    exact ⟨_, hrun, by simp [createAttempts, Event.isCreateNamespace]⟩
  · intro c o rest hns hc he ho
    rw [hns, namespaceLoop_opened _ _ _ _ hc he ho] at hrun
    exact ⟨_, hrun, by simp [createAttempts, Event.isCreateNamespace]⟩
  · intro c o rest hns hc he ho hp
    have hrun' := NamespaceRuntimeInit_after_prereqs s { env with ns := rest }
      hflag hprov hsid hb hadd
    rw [hrun, hrun', hns, namespaceLoop_round _ _ _ _ hc he ho hp]
    cases namespaceLoop env.boundary.ret rest with
    | none => rfl
    | some p =>
      obtain ⟨res, tl⟩ := p
      cases res with
      | error code =>
        simp [createAttempts, List.countP_cons, List.countP_append, Event.isCreateNamespace]
      | ok u =>
        simp [createAttempts, List.countP_cons, List.countP_append, Event.isCreateNamespace]
  · intro c rest hns hc he
    rw [hns, namespaceLoop_createErr _ _ _ hc he, hs] at hrun
    exact ⟨_, hrun, by simp [createAttempts, Event.isCreateNamespace]⟩
  · intro c o rest hns hc he ho hp
    rw [hns, namespaceLoop_openErr _ _ _ _ hc he ho hp, hs] at hrun
    exact ⟨_, hrun, by simp [createAttempts, Event.isCreateNamespace]⟩
  · intro n c rest hns hc
    obtain ⟨tl, h1, h2⟩ := namespaceLoop_raceRounds env.boundary.ret n c rest hc
    rw [hns, h1] at hrun
    refine ⟨_, hrun, ?_⟩
    rw [createAttempts_append, createAttempts_append, h2]
    simp [createAttempts, Event.isCreateNamespace]

/-- C6 at a concrete run: two race rounds, then a create that succeeds. -/
theorem NamespaceRuntimeInit_create_open_protocol_witness :
    ∃ tr, NamespaceRuntimeInit NamespaceInit
        (bootWith [⟨0, 183⟩, ⟨0, 3⟩, ⟨0, 183⟩, ⟨0, 3⟩, ⟨11, 0⟩]) =
        some (ERROR_SUCCESS, { HasInitialized := true, AlgProvider := 7 }, tr) ∧
      createAttempts tr = 2 + 1 :=
  (NamespaceRuntimeInit_create_open_protocol NamespaceInit
    (bootWith [⟨0, 183⟩, ⟨0, 3⟩, ⟨0, 183⟩, ⟨0, 3⟩, ⟨11, 0⟩])
    (by rfl) (by rfl) (by decide) (by decide) (by decide)).2.2.2.2.2
    2 ⟨11, 0⟩ [] (by rfl) (by decide)

/-! ## Bootstrap: caching of success, retry after failure -/

/-- C7 (counterexample): from the initial state, when `CreateWellKnownSid`
fails and `GetLastError()` gives 0, `NamespaceRuntimeInit` returns
`ERROR_SUCCESS` through the cleanup labels, with the ready flag still false.
The next call then does the bootstrap work again: with every OS call
succeeding it opens a provider, creates the SID and the boundary descriptor
and creates the namespace; with a failing provider it returns
`ERROR_GEN_FAILURE`. -/
theorem NamespaceRuntimeInit_success_without_ready_flag :
    NamespaceRuntimeInit NamespaceInit bootSidUnreported =
      some (ERROR_SUCCESS, { HasInitialized := false, AlgProvider := 7 },
        [.EnterCriticalSection, .BCryptOpenAlgorithmProvider, .CreateWellKnownSid,
          .BCryptCloseAlgorithmProvider 7, .LeaveCriticalSection]) ∧
    NamespaceRuntimeInit { HasInitialized := false, AlgProvider := 7 } bootOk =
      some (ERROR_SUCCESS, { HasInitialized := true, AlgProvider := 7 },
        [.EnterCriticalSection, .BCryptOpenAlgorithmProvider, .CreateWellKnownSid,
          .CreateBoundaryDescriptorW, .AddSIDToBoundaryDescriptor 9,
          .CreatePrivateNamespaceW 9, .LeaveCriticalSection]) ∧
    [Event.EnterCriticalSection, .BCryptOpenAlgorithmProvider, .CreateWellKnownSid,
        .CreateBoundaryDescriptorW, .AddSIDToBoundaryDescriptor 9,
        .CreatePrivateNamespaceW 9, .LeaveCriticalSection] ≠
      [.EnterCriticalSection, .LeaveCriticalSection] ∧
    NamespaceRuntimeInit { HasInitialized := false, AlgProvider := 7 } bootNoProvider =
      some (ERROR_GEN_FAILURE, { HasInitialized := false, AlgProvider := 7 },
        [.EnterCriticalSection, .BCryptOpenAlgorithmProvider, .LeaveCriticalSection]) ∧
    ERROR_GEN_FAILURE ≠ ERROR_SUCCESS := by
  refine ⟨by rfl, by rfl, by decide, by rfl, by decide⟩

/-- C7 (amended): if a call of `NamespaceRuntimeInit` returns `ERROR_SUCCESS`
and either every OS call that failed during it reported a non-zero last-error
code or the call left the ready flag set, then the ready flag is set, and every
later call with no `NamespaceCleanup` in between, whatever the OS would answer,
returns `ERROR_SUCCESS`, makes no call other than `EnterCriticalSection` and
`LeaveCriticalSection`, and leaves `HasInitialized` and `AlgProvider`
unchanged. -/
theorem NamespaceRuntimeInit_success_is_cached (s : State) (env : InitEnv) (s' : State)
    (tr : List Event)
    (h : NamespaceRuntimeInit s env = some (ERROR_SUCCESS, s', tr))
    (hos : env.failuresReported = true ∨ s'.HasInitialized = true) :
    s'.HasInitialized = true ∧
    (∀ env', NamespaceRuntimeInit s' env' =
      some (ERROR_SUCCESS, s', [.EnterCriticalSection, .LeaveCriticalSection])) ∧
    (∀ envs : List InitEnv, runtimeInitCalls s' envs =
      some (s', envs.map (fun _ =>
        (ERROR_SUCCESS, [Event.EnterCriticalSection, Event.LeaveCriticalSection])))) := by
  have hready : s'.HasInitialized = true := by
    rcases hos with hos | hos
    · exact NamespaceRuntimeInit_success_ready s env s' tr hos h
    · exact hos
  exact ⟨hready, fun env' => NamespaceRuntimeInit_ready s' env' hready,
    fun envs => runtimeInitCalls_ready s' hready envs⟩

/-- C7 (amended) at a concrete run: a first call from the initial state
succeeds after a race round, every failed call reporting a non-zero code; two
later calls, one of which would meet a failing provider. -/
theorem NamespaceRuntimeInit_success_is_cached_witness :
    NamespaceRuntimeInit NamespaceInit (bootWith [⟨0, 183⟩, ⟨0, 3⟩, ⟨11, 0⟩]) =
      some (ERROR_SUCCESS, { HasInitialized := true, AlgProvider := 7 },
        [.EnterCriticalSection, .BCryptOpenAlgorithmProvider, .CreateWellKnownSid,
          .CreateBoundaryDescriptorW, .AddSIDToBoundaryDescriptor 9,
          .CreatePrivateNamespaceW 9, .OpenPrivateNamespaceW 9, .CreatePrivateNamespaceW 9,
          .LeaveCriticalSection]) ∧
    (bootWith [⟨0, 183⟩, ⟨0, 3⟩, ⟨11, 0⟩]).failuresReported = true ∧
    runtimeInitCalls { HasInitialized := true, AlgProvider := 7 } [bootNoProvider, bootOk] =
      some ({ HasInitialized := true, AlgProvider := 7 },
        [(ERROR_SUCCESS, [.EnterCriticalSection, .LeaveCriticalSection]),
         (ERROR_SUCCESS, [.EnterCriticalSection, .LeaveCriticalSection])]) :=
  ⟨by rfl, by rfl,
    (NamespaceRuntimeInit_success_is_cached NamespaceInit
      (bootWith [⟨0, 183⟩, ⟨0, 3⟩, ⟨11, 0⟩]) { HasInitialized := true, AlgProvider := 7 } _
      (by rfl) (Or.inl (by rfl))).2.2 [bootNoProvider, bootOk]⟩

/-- C8: whenever `NamespaceRuntimeInit` returns a failure code, the ready flag
was and still is false; if the provider was opened by the call it is closed
exactly once, by the last call before `LeaveCriticalSection`; if opening the
provider failed no close is issued and the code is `ERROR_GEN_FAILURE`; and the
next call, whatever the OS answers, returns the code and makes the calls that a
call from the initial state would, beginning with `EnterCriticalSection` and
`BCryptOpenAlgorithmProvider`. -/
theorem NamespaceRuntimeInit_failure_not_cached (s : State) (env : InitEnv) (r : DWORD)
    (s' : State) (tr : List Event)
    (h : NamespaceRuntimeInit s env = some (r, s', tr)) (hr : r ≠ ERROR_SUCCESS) :
    s.HasInitialized = false ∧ s'.HasInitialized = false ∧
    (BCRYPT_SUCCESS env.openProvider = true →
      ∃ pre, tr = pre ++ [.BCryptCloseAlgorithmProvider env.provider, .LeaveCriticalSection] ∧
        Event.BCryptOpenAlgorithmProvider ∈ pre ∧
        pre.countP Event.isCloseProvider = 0 ∧ tr.countP Event.isCloseProvider = 1) ∧
    (BCRYPT_SUCCESS env.openProvider = false →
      r = ERROR_GEN_FAILURE ∧ tr.countP Event.isCloseProvider = 0) ∧
    (∀ env', (NamespaceRuntimeInit s' env').map (fun x => (x.1, x.2.2)) =
      (NamespaceRuntimeInit NamespaceInit env').map (fun x => (x.1, x.2.2))) ∧
    (∀ env' r' s'' tr', NamespaceRuntimeInit s' env' = some (r', s'', tr') →
      ∃ rest, tr' = .EnterCriticalSection :: .BCryptOpenAlgorithmProvider :: rest) := by
  have hcount : ∀ mid : List Event, (∀ e ∈ mid, e.isBoundaryWork = true) →
      mid.countP Event.isCloseProvider = 0 := by
    intro mid hmid
    rw [List.countP_eq_zero]
    intro e he
    have := hmid e he
    cases e <;> simp_all [Event.isBoundaryWork, Event.isCloseProvider]
  have hnext : ∀ t : State, t.HasInitialized = false →
      (∀ env', (NamespaceRuntimeInit t env').map (fun x => (x.1, x.2.2)) =
        (NamespaceRuntimeInit NamespaceInit env').map (fun x => (x.1, x.2.2))) ∧
      (∀ env' r' s'' tr', NamespaceRuntimeInit t env' = some (r', s'', tr') →
        ∃ rest, tr' = .EnterCriticalSection :: .BCryptOpenAlgorithmProvider :: rest) := by
    intro t ht
    constructor
    · intro env'
      unfold NamespaceRuntimeInit
      simp only [ht, NamespaceInit, Bool.false_eq_true, if_false]
      split
      · rfl
      split
      · rfl
      split
      · rfl
      split
      · rfl
      cases namespaceLoop env'.boundary.ret env'.ns with
      | none => rfl
      | some p =>
        obtain ⟨res, tl⟩ := p
        cases res <;> rfl
    · intro env' r' s'' tr' h'
      rcases NamespaceRuntimeInit_cases t env' r' s'' tr' h' with
        ⟨hf, -⟩ | ⟨-, -, -, -, rfl⟩ | ⟨-, -, -, ⟨mid, rfl, -⟩, -⟩ | ⟨-, -, -, -, mid, rfl, -⟩
      · rw [ht] at hf; cases hf
      · exact ⟨_, rfl⟩
      · exact ⟨_, rfl⟩
      · exact ⟨_, rfl⟩
  rcases NamespaceRuntimeInit_cases s env r s' tr h with
    ⟨-, hr0, -⟩ | ⟨hf, hp, rfl, hs, rfl⟩ | ⟨hf, hp, rfl, ⟨mid, rfl, hmid⟩, -⟩ | ⟨-, -, hr0, -⟩
  · exact absurd hr0 hr
  · subst hs
    refine ⟨hf, hf, ?_, ?_, (hnext s' hf).1, (hnext s' hf).2⟩
    · intro hp'; rw [hp] at hp'; cases hp'
    · intro _; exact ⟨rfl, by simp [Event.isCloseProvider]⟩
  · refine ⟨hf, hf, ?_, ?_, (hnext { s with AlgProvider := env.provider } hf).1,
      (hnext { s with AlgProvider := env.provider } hf).2⟩
    · intro _
      refine ⟨.EnterCriticalSection :: .BCryptOpenAlgorithmProvider :: mid, by simp, by simp,
        ?_, ?_⟩
      · simp [List.countP_cons, hcount mid hmid, Event.isCloseProvider]
      · simp [List.countP_cons, List.countP_append, hcount mid hmid, Event.isCloseProvider]
    · intro hp'; rw [hp] at hp'; cases hp'
  · exact absurd hr0 hr

/-- C8 at a concrete run: `CreatePrivateNamespaceW` is denied access. -/
theorem NamespaceRuntimeInit_failure_not_cached_witness :
    NamespaceRuntimeInit NamespaceInit bootCreateDenied =
      some (5, { HasInitialized := false, AlgProvider := 7 },
        [.EnterCriticalSection, .BCryptOpenAlgorithmProvider, .CreateWellKnownSid,
          .CreateBoundaryDescriptorW, .AddSIDToBoundaryDescriptor 9,
          .CreatePrivateNamespaceW 9, .BCryptCloseAlgorithmProvider 7,
          .LeaveCriticalSection]) ∧
    (∃ pre,
        [Event.EnterCriticalSection, .BCryptOpenAlgorithmProvider, .CreateWellKnownSid,
          .CreateBoundaryDescriptorW, .AddSIDToBoundaryDescriptor 9,
          .CreatePrivateNamespaceW 9, .BCryptCloseAlgorithmProvider 7,
          .LeaveCriticalSection] =
          pre ++ [.BCryptCloseAlgorithmProvider bootCreateDenied.provider,
            .LeaveCriticalSection] ∧
        Event.BCryptOpenAlgorithmProvider ∈ pre ∧
        pre.countP Event.isCloseProvider = 0 ∧
        [Event.EnterCriticalSection, .BCryptOpenAlgorithmProvider, .CreateWellKnownSid,
          .CreateBoundaryDescriptorW, .AddSIDToBoundaryDescriptor 9,
          .CreatePrivateNamespaceW 9, .BCryptCloseAlgorithmProvider 7,
          .LeaveCriticalSection].countP Event.isCloseProvider = 1) ∧
    (NamespaceRuntimeInit { HasInitialized := false, AlgProvider := 7 } bootOk).map
        (fun x => (x.1, x.2.2)) =
      (NamespaceRuntimeInit NamespaceInit bootOk).map (fun x => (x.1, x.2.2)) :=
  ⟨by rfl,
    (NamespaceRuntimeInit_failure_not_cached NamespaceInit bootCreateDenied 5
      { HasInitialized := false, AlgProvider := 7 } _ (by rfl) (by decide)).2.2.1 (by rfl),
    (NamespaceRuntimeInit_failure_not_cached NamespaceInit bootCreateDenied 5
      { HasInitialized := false, AlgProvider := 7 } _ (by rfl) (by decide)).2.2.2.2.1 bootOk⟩

/-! ## Logging -/

/-- C9 (counterexample): from the initial state, when
`BCryptOpenAlgorithmProvider` fails, `NamespaceRuntimeInit` returns the failure
code `ERROR_GEN_FAILURE` having made no logger call; and when the wait fails,
`NamespaceTakeDriverInstallationMutex` returns `NULL` having made no logger
call. -/
theorem failure_paths_without_log :
    NamespaceRuntimeInit NamespaceInit bootNoProvider =
      some (ERROR_GEN_FAILURE, NamespaceInit,
        [.EnterCriticalSection, .BCryptOpenAlgorithmProvider, .LeaveCriticalSection]) ∧
    ERROR_GEN_FAILURE ≠ ERROR_SUCCESS ∧
    [Event.EnterCriticalSection, .BCryptOpenAlgorithmProvider,
      .LeaveCriticalSection].countP Event.isLog = 0 ∧
    (NamespaceTakeDriverInstallationMutex NamespaceInit (driverOk 0xFFFFFFFF)).map
      (fun x => (x.1, x.2.2.countP Event.isLog)) = some (NULL, 0) := by
  refine ⟨by rfl, by decide, by rfl, by rfl⟩

/-- C9 (amended): `NamespaceRuntimeInit` and
`NamespaceTakeDriverInstallationMutex` never call the logger; a run of
`NamespaceTakePoolMutex` calls the logger exactly when it reaches
`NormalizeStringAlloc` and that returns `NULL`, in which case it calls the
logger once and returns `NULL`; every other run of `NamespaceTakePoolMutex`
makes no logger call. -/
theorem logger_called_only_by_normalization :
    (∀ s env r s' tr, NamespaceRuntimeInit s env = some (r, s', tr) →
      tr.countP Event.isLog = 0) ∧
    (∀ s env Mutex s' tr, NamespaceTakeDriverInstallationMutex s env = some (Mutex, s', tr) →
      tr.countP Event.isLog = 0) ∧
    (∀ Pool s env Mutex s' tr, NamespaceTakePoolMutex Pool s env = some (Mutex, s', tr) →
      ((∃ s1 t0 tn, NamespaceRuntimeInit s env.init = some (ERROR_SUCCESS, s1, t0) ∧
          BCRYPT_SUCCESS env.createHash = true ∧ BCRYPT_SUCCESS env.hashLabel = true ∧
          NormalizeStringAlloc Pool env.norm = some (none, tn)) →
        Mutex = NULL ∧ tr.countP Event.isLog = 1) ∧
      (¬ (∃ s1 t0 tn, NamespaceRuntimeInit s env.init = some (ERROR_SUCCESS, s1, t0) ∧
          BCRYPT_SUCCESS env.createHash = true ∧ BCRYPT_SUCCESS env.hashLabel = true ∧
          NormalizeStringAlloc Pool env.norm = some (none, tn)) →
        tr.countP Event.isLog = 0)) := by
  refine ⟨?_, ?_, ?_⟩
  · intro s env r s' tr h
    exact countP_isLog_bootstrap tr (NamespaceRuntimeInit_events _ _ _ _ _ h)
  · intro s env Mutex s' tr h
    unfold NamespaceTakeDriverInstallationMutex at h
    cases hi : NamespaceRuntimeInit s env.init with
    | none => simp [hi] at h
    | some p =>
      obtain ⟨r, s1, t0⟩ := p
      have h0 := countP_isLog_bootstrap t0 (NamespaceRuntimeInit_events _ _ _ _ _ hi)
      simp only [hi] at h
      split_ifs at h <;> cases h <;> simp [List.countP_append, List.countP_cons, h0, Event.isLog]
  · intro Pool s env Mutex s' tr h
    unfold NamespaceTakePoolMutex at h
    cases hi : NamespaceRuntimeInit s env.init with
    | none => simp [hi] at h
    | some p =>
      obtain ⟨r, s1, t0⟩ := p
      have h0 := countP_isLog_bootstrap t0 (NamespaceRuntimeInit_events _ _ _ _ _ hi)
      simp only [hi] at h
      by_cases hr : r = ERROR_SUCCESS
      · subst hr
        by_cases hc : BCRYPT_SUCCESS env.createHash = true
        · by_cases hl : BCRYPT_SUCCESS env.hashLabel = true
          · cases hn : NormalizeStringAlloc Pool env.norm with
            | none => simp [hc, hl, hn] at h
            | some q =>
              obtain ⟨res, tn⟩ := q
              have hlog := NormalizeStringAlloc_logs _ _ _ _ hn
              cases res with
              | none =>
                simp only [hc, hl, hn, ne_eq, not_true_eq_false, if_false, Bool.not_true,
                  Bool.false_eq_true, Option.some.injEq, Prod.mk.injEq] at h
                obtain ⟨rfl, rfl, rfl⟩ := h
                constructor
                · intro _
                  refine ⟨rfl, ?_⟩
                  simp [List.countP_append, List.countP_cons, h0, hlog, Event.isLog]
                · intro hne
                  exact absurd ⟨s1, t0, tn, rfl, hc, hl, rfl⟩ hne
              | some m =>
                obtain ⟨mem, PoolNorm⟩ := m
                simp only [hc, hl, hn, ne_eq, not_true_eq_false, if_false, Bool.not_true,
                  Bool.false_eq_true] at h
                constructor
                · rintro ⟨_, _, _, _, _, _, hcontra⟩
                  cases hcontra
                · intro _
                  simp only [reduceCtorEq, if_false] at hlog
                  split_ifs at h <;> cases h <;>
                    simp [List.countP_append, List.countP_cons, h0, hlog, Event.isLog]
          · simp only [Bool.not_eq_true] at hl
            simp only [hc, hl, ne_eq, not_true_eq_false, if_false, Bool.not_true,
              Bool.false_eq_true, Bool.not_false, if_true, Option.some.injEq,
              Prod.mk.injEq] at h
            obtain ⟨rfl, rfl, rfl⟩ := h
            constructor
            · rintro ⟨_, _, _, _, _, hl', _⟩
              rw [hl] at hl'; cases hl'
            · intro _
              simp [List.countP_append, List.countP_cons, h0, Event.isLog]
        · simp only [Bool.not_eq_true] at hc
          simp only [hc, ne_eq, not_true_eq_false, if_false, Bool.not_false, if_true,
            Option.some.injEq, Prod.mk.injEq] at h
          obtain ⟨rfl, rfl, rfl⟩ := h
          constructor
          · rintro ⟨_, _, _, _, hc', _⟩
            rw [hc] at hc'; cases hc'
          · intro _
            simp [List.countP_append, List.countP_cons, h0, Event.isLog]
      · simp only [ne_eq, hr, not_false_eq_true, if_true, Option.some.injEq,
          Prod.mk.injEq] at h
        obtain ⟨rfl, rfl, rfl⟩ := h
        constructor
        · rintro ⟨_, _, _, hi', _⟩
          simp only [Option.some.injEq, Prod.mk.injEq] at hi'
          exact absurd hi'.1 hr
        · intro _
          exact h0

/-- C9 (amended) at a concrete run: the pool identifier is a lone surrogate,
`NormalizeString` rejects it, and `NamespaceTakePoolMutex` returns `NULL` after
one logger call. -/
theorem logger_called_only_by_normalization_witness :
    NamespaceTakePoolMutex [0xD800] NamespaceInit poolBadUnicode =
      some (NULL, { HasInitialized := true, AlgProvider := 7 },
        [.EnterCriticalSection, .BCryptOpenAlgorithmProvider, .CreateWellKnownSid,
          .CreateBoundaryDescriptorW, .AddSIDToBoundaryDescriptor 9,
          .CreatePrivateNamespaceW 9, .LeaveCriticalSection, .BCryptCreateHash 7,
          .BCryptHashData 5 (bytesOf mutex_label),
          .NormalizeString [0xD800] 0, .HeapAlloc 2, .NormalizeString [0xD800] 2,
          .HeapFree 100, .LoggerError "NormalizeStringAlloc: Failed" 1113,
          .BCryptDestroyHash 5]) ∧
    (NULL = NULL ∧
      [Event.EnterCriticalSection, .BCryptOpenAlgorithmProvider, .CreateWellKnownSid,
          .CreateBoundaryDescriptorW, .AddSIDToBoundaryDescriptor 9,
          .CreatePrivateNamespaceW 9, .LeaveCriticalSection, .BCryptCreateHash 7,
          .BCryptHashData 5 (bytesOf mutex_label),
          .NormalizeString [0xD800] 0, .HeapAlloc 2, .NormalizeString [0xD800] 2,
          .HeapFree 100, .LoggerError "NormalizeStringAlloc: Failed" 1113,
          .BCryptDestroyHash 5].countP Event.isLog = 1) :=
  ⟨by rfl,
    (logger_called_only_by_normalization.2.2 [0xD800] NamespaceInit poolBadUnicode NULL
      { HasInitialized := true, AlgProvider := 7 } _ (by rfl)).1
      ⟨{ HasInitialized := true, AlgProvider := 7 }, _, _, by rfl, by rfl, by rfl, by rfl⟩⟩

/-! ## The boundary descriptor -/

/-- C10 (what the code does): no run of `NamespaceRuntimeInit` calls
`DeleteBoundaryDescriptor`; whenever the run created a boundary descriptor
(the SID step succeeded and `CreateBoundaryDescriptorW` returned a handle), the
trace holds the creation and no release, on the success path and on every
failure path. -/
theorem NamespaceRuntimeInit_never_releases_boundary (s : State) (env : InitEnv) (r : DWORD)
    (s' : State) (tr : List Event) (h : NamespaceRuntimeInit s env = some (r, s', tr)) :
    tr.countP Event.isDeleteBoundary = 0 ∧
    (s.HasInitialized = false → BCRYPT_SUCCESS env.openProvider = true →
      env.sid.ret ≠ 0 → env.boundary.ret ≠ 0 → Event.CreateBoundaryDescriptorW ∈ tr) := by
  constructor
  · rw [List.countP_eq_zero]
    intro e he
    have := NamespaceRuntimeInit_events s env r s' tr h e he
    cases e <;> simp_all [Event.isBootstrap, Event.isDeleteBoundary]
  · intro hf hp hs hb
    unfold NamespaceRuntimeInit at h
    simp only [hf, hp, hs, hb, Bool.false_eq_true, if_false, Bool.not_true] at h
    split at h
    · cases h; simp
    · cases hl : namespaceLoop env.boundary.ret env.ns with
      | none => simp [hl] at h
      | some p =>
        obtain ⟨res, tl⟩ := p
        cases res <;> simp only [hl, Option.some.injEq, Prod.mk.injEq] at h <;>
          obtain ⟨-, -, rfl⟩ := h <;> simp

/-- C10 at the failing inputs: a boundary descriptor is created and is not
released on the success path, when `AddSIDToBoundaryDescriptor` fails, and when
`CreatePrivateNamespaceW` fails. -/
theorem NamespaceRuntimeInit_never_releases_boundary_witness :
    (NamespaceRuntimeInit NamespaceInit bootOk =
      some (ERROR_SUCCESS, { HasInitialized := true, AlgProvider := 7 },
        [.EnterCriticalSection, .BCryptOpenAlgorithmProvider, .CreateWellKnownSid,
          .CreateBoundaryDescriptorW, .AddSIDToBoundaryDescriptor 9,
          .CreatePrivateNamespaceW 9, .LeaveCriticalSection]) ∧
      [Event.EnterCriticalSection, .BCryptOpenAlgorithmProvider, .CreateWellKnownSid,
          .CreateBoundaryDescriptorW, .AddSIDToBoundaryDescriptor 9,
          .CreatePrivateNamespaceW 9, .LeaveCriticalSection].countP
        Event.isDeleteBoundary = 0) ∧
    (NamespaceRuntimeInit NamespaceInit bootAddSidFails =
      some (87, { HasInitialized := false, AlgProvider := 7 },
        [.EnterCriticalSection, .BCryptOpenAlgorithmProvider, .CreateWellKnownSid,
          .CreateBoundaryDescriptorW, .AddSIDToBoundaryDescriptor 9,
          .BCryptCloseAlgorithmProvider 7, .LeaveCriticalSection]) ∧
      [Event.EnterCriticalSection, .BCryptOpenAlgorithmProvider, .CreateWellKnownSid,
          .CreateBoundaryDescriptorW, .AddSIDToBoundaryDescriptor 9,
          .BCryptCloseAlgorithmProvider 7, .LeaveCriticalSection].countP
        Event.isDeleteBoundary = 0) ∧
    (NamespaceRuntimeInit NamespaceInit bootCreateDenied =
      some (5, { HasInitialized := false, AlgProvider := 7 },
        [.EnterCriticalSection, .BCryptOpenAlgorithmProvider, .CreateWellKnownSid,
          .CreateBoundaryDescriptorW, .AddSIDToBoundaryDescriptor 9,
          .CreatePrivateNamespaceW 9, .BCryptCloseAlgorithmProvider 7,
          .LeaveCriticalSection]) ∧
      [Event.EnterCriticalSection, .BCryptOpenAlgorithmProvider, .CreateWellKnownSid,
          .CreateBoundaryDescriptorW, .AddSIDToBoundaryDescriptor 9,
          .CreatePrivateNamespaceW 9, .BCryptCloseAlgorithmProvider 7,
          .LeaveCriticalSection].countP Event.isDeleteBoundary = 0) :=
  ⟨⟨by rfl, (NamespaceRuntimeInit_never_releases_boundary NamespaceInit bootOk _ _ _
      (by rfl)).1⟩,
    ⟨by rfl, (NamespaceRuntimeInit_never_releases_boundary NamespaceInit bootAddSidFails _ _ _
      (by rfl)).1⟩,
    ⟨by rfl, (NamespaceRuntimeInit_never_releases_boundary NamespaceInit bootCreateDenied _ _ _
      (by rfl)).1⟩⟩

/-! ## The name buffer -/

theorem stackTail_length (stack : Nat → WCHAR) (k : Nat) :
    (stackTail stack k).length = 64 - 2 * k := by
  simp [stackTail]

/-- The buffer after the first `k` rounds, split at the next write offset. -/
theorem mutexNameAfter_eq (stack : Nat → WCHAR) (Hash : List BYTE) (k : Nat) (hk : k ≤ 32) :
    mutexNameAfter stack Hash k =
      wstr "Wintun\\Wintun-Name-Mutex-" ++ hexOf Hash k ++ 0 :: stackTail stack k := by
  unfold mutexNameAfter
  simp only []
  rw [mutexName_initial, render_loop stack Hash k hk]

theorem mutexNameAfter_succ (stack : Nat → WCHAR) (Hash : List BYTE) (k : Nat) :
    mutexNameAfter stack Hash (k + 1) =
      swprintf_s_02x (mutexNameAfter stack Hash k) (MutexNamePrefix.length - 1 + k * 2)
        (Hash.getD k 0) := by
  unfold mutexNameAfter
  simp only [List.range_succ, List.foldl_append, List.foldl_cons, List.foldl_nil]

theorem mutexNameAfter_length (stack : Nat → WCHAR) (Hash : List BYTE) (k : Nat)
    (hk : k ≤ 32) : (mutexNameAfter stack Hash k).length = 90 := by
  rw [mutexNameAfter_eq stack Hash k hk]
  simp only [List.length_append, List.length_cons, hexOf_length, stackTail_length,
    wstr_name_length]
  omega

/-- The three code units at a split point of a buffer. -/
theorem getElem?_at_split (A : List WCHAR) (x y z : WCHAR) (B : List WCHAR) :
    (A ++ x :: y :: z :: B)[A.length]? = some x ∧
    (A ++ x :: y :: z :: B)[A.length + 1]? = some y ∧
    (A ++ x :: y :: z :: B)[A.length + 2]? = some z := by
  refine ⟨?_, ?_, ?_⟩
  · rw [List.getElem?_append_right (le_refl _)]; simp
  · rw [List.getElem?_append_right (by omega)]; simp
  · rw [List.getElem?_append_right (by omega)]; simp

/-- The code units the `i`-th rendering leaves at its offset. -/
theorem mutexNameAfter_written (stack : Nat → WCHAR) (Hash : List BYTE) (i : Nat)
    (hi : i < 32) :
    (mutexNameAfter stack Hash (i + 1))[25 + 2 * i]? = some (hexDigit (Hash.getD i 0 / 16)) ∧
    (mutexNameAfter stack Hash (i + 1))[25 + 2 * i + 1]? =
      some (hexDigit (Hash.getD i 0 % 16)) ∧
    (mutexNameAfter stack Hash (i + 1))[25 + 2 * i + 2]? = some 0 := by
  have hlen : (wstr "Wintun\\Wintun-Name-Mutex-" ++ hexOf Hash i).length = 25 + 2 * i := by
    rw [List.length_append, hexOf_length, wstr_name_length]
  have hshape : mutexNameAfter stack Hash (i + 1) =
      (wstr "Wintun\\Wintun-Name-Mutex-" ++ hexOf Hash i) ++
        hexDigit (Hash.getD i 0 / 16) :: hexDigit (Hash.getD i 0 % 16) :: 0 ::
          stackTail stack (i + 1) := by
    rw [mutexNameAfter_eq stack Hash (i + 1) (by omega), hexOf_succ]
    simp
  rw [hshape, ← hlen]
  exact getElem?_at_split _ _ _ _ _

/-- C11: the buffer `MutexName` has `_countof(MutexNamePrefix) + 64 = 90` code
units, before and after every round of the rendering loop; for every `i < 32`
the `i`-th rendering writes at offset `25 + 2 * i`, its three code units (two
digits and the terminator, at `25 + 2 * i`, `+ 1` and `+ 2`) lie inside the
buffer and no other code unit changes; the terminator left by rendering `i` at
index `25 + 2 * i + 2` is where rendering `i + 1` writes its first digit, which
is not NUL; and after the last rendering the buffer holds NUL at index 89, its
last element, with no NUL before it. -/
theorem MutexName_writes_in_bounds (stack : Nat → WCHAR) (Hash : List BYTE) :
    MutexNamePrefix.length + 32 * 2 = 90 ∧
    (∀ k, k ≤ 32 → (mutexNameAfter stack Hash k).length = 90) ∧
    (∀ i, i < 32 →
      MutexNamePrefix.length - 1 + i * 2 = 25 + 2 * i ∧
      25 + 2 * i + 2 < (mutexNameAfter stack Hash i).length ∧
      mutexNameAfter stack Hash (i + 1) =
        swprintf_s_02x (mutexNameAfter stack Hash i) (25 + 2 * i) (Hash.getD i 0) ∧
      (mutexNameAfter stack Hash (i + 1))[25 + 2 * i]? =
        some (hexDigit (Hash.getD i 0 / 16)) ∧
      (mutexNameAfter stack Hash (i + 1))[25 + 2 * i + 1]? =
        some (hexDigit (Hash.getD i 0 % 16)) ∧
      (mutexNameAfter stack Hash (i + 1))[25 + 2 * i + 2]? = some 0 ∧
      (∀ j, j ≠ 25 + 2 * i → j ≠ 25 + 2 * i + 1 → j ≠ 25 + 2 * i + 2 →
        (mutexNameAfter stack Hash (i + 1))[j]? = (mutexNameAfter stack Hash i)[j]?)) ∧
    (∀ i, i + 1 < 32 →
      25 + 2 * i + 2 = 25 + 2 * (i + 1) ∧
      (mutexNameAfter stack Hash (i + 1))[25 + 2 * i + 2]? = some 0 ∧
      (mutexNameAfter stack Hash (i + 2))[25 + 2 * i + 2]? =
        some (hexDigit (Hash.getD (i + 1) 0 / 16)) ∧
      hexDigit (Hash.getD (i + 1) 0 / 16) ≠ 0) ∧
    buildMutexName stack Hash = mutexNameAfter stack Hash 32 ∧
    (buildMutexName stack Hash).length = 90 ∧
    (buildMutexName stack Hash)[89]? = some 0 ∧
    (buildMutexName stack Hash).getLast? = some 0 ∧
    (cstr (buildMutexName stack Hash)).length = 89 := by
  have hoff : ∀ i, MutexNamePrefix.length - 1 + i * 2 = 25 + 2 * i := by
    intro i
    rw [MutexNamePrefix_length]
    omega
  have hfinal : buildMutexName stack Hash = mutexNameAfter stack Hash 32 := rfl
  refine ⟨by rw [MutexNamePrefix_length], fun k hk => mutexNameAfter_length stack Hash k hk,
    ?_, ?_, hfinal, ?_, ?_, ?_, ?_⟩
  · intro i hi
    have hstep : mutexNameAfter stack Hash (i + 1) =
        swprintf_s_02x (mutexNameAfter stack Hash i) (25 + 2 * i) (Hash.getD i 0) := by
      rw [mutexNameAfter_succ, hoff]
    obtain ⟨h0, h1, h2⟩ := mutexNameAfter_written stack Hash i hi
    refine ⟨hoff i, ?_, hstep, h0, h1, h2, ?_⟩
    · rw [mutexNameAfter_length stack Hash i (by omega)]
      omega
    · intro j hj0 hj1 hj2
      rw [hstep]
      unfold swprintf_s_02x
      rw [List.getElem?_set_ne (Ne.symm hj2), List.getElem?_set_ne (Ne.symm hj1),
        List.getElem?_set_ne (Ne.symm hj0)]
  · intro i hi
    obtain ⟨-, -, h2⟩ := mutexNameAfter_written stack Hash i (by omega)
    obtain ⟨h0', -, -⟩ := mutexNameAfter_written stack Hash (i + 1) hi
    have hidx : 25 + 2 * i + 2 = 25 + 2 * (i + 1) := by omega
    refine ⟨hidx, h2, ?_, hexDigit_ne_zero _⟩
    rw [hidx]
    exact h0'
  · rw [hfinal]
    exact mutexNameAfter_length stack Hash 32 (le_refl 32)
  · rw [hfinal]
    exact (mutexNameAfter_written stack Hash 31 (by omega)).2.2
  · rw [buildMutexName_eq]
    simp
  · rw [buildMutexName_eq, List.append_assoc]
    have hA : ∀ c ∈ wstr "Wintun\\Wintun-Name-Mutex-" ++ hexOf Hash 32, c ≠ 0 := by
      intro c hc
      rcases List.mem_append.mp hc with h | h
      · exact wstr_name_ne_zero c h
      · exact hexOf_ne_zero _ _ c h
    rw [← List.append_assoc, cstr_append_nul _ _ hA, List.length_append, hexOf_length,
      wstr_name_length]

/-- C11 at a concrete run: the last rendering (`i = 31`) on a stack filled with
`0xCCCC` and a sample digest writes at indices 87, 88 and 89 of the 90-unit
buffer, over the terminator left by rendering 30, and leaves NUL at index 89. -/
theorem MutexName_writes_in_bounds_witness :
    25 + 2 * 31 + 2 < (mutexNameAfter (fun _ => 0xCCCC) (digest sampleSha []) 31).length ∧
    (mutexNameAfter (fun _ => 0xCCCC) (digest sampleSha []) (30 + 1))[25 + 2 * 30 + 2]? =
      some 0 ∧
    (mutexNameAfter (fun _ => 0xCCCC) (digest sampleSha []) (30 + 2))[25 + 2 * 30 + 2]? =
      some (hexDigit ((digest sampleSha []).getD (30 + 1) 0 / 16)) ∧
    (buildMutexName (fun _ => 0xCCCC) (digest sampleSha []))[89]? = some 0 ∧
    (buildMutexName (fun _ => 0xCCCC) (digest sampleSha [])).length = 90 :=
  ⟨((MutexName_writes_in_bounds (fun _ => 0xCCCC) (digest sampleSha [])).2.2.1 31
      (by decide)).2.1,
    ((MutexName_writes_in_bounds (fun _ => 0xCCCC) (digest sampleSha [])).2.2.2.1 30
      (by decide)).2.1,
    ((MutexName_writes_in_bounds (fun _ => 0xCCCC) (digest sampleSha [])).2.2.2.1 30
      (by decide)).2.2.1,
    (MutexName_writes_in_bounds (fun _ => 0xCCCC) (digest sampleSha [])).2.2.2.2.2.2.1,
    (MutexName_writes_in_bounds (fun _ => 0xCCCC) (digest sampleSha [])).2.2.2.2.2.1⟩

end Wintun
